import Mathlib

/-!
# samples/cram.c

A shallow embedding of `main` of `samples/cram.c`: the program that copies the
alignments of one input file to four CRAM files that differ in the way the
reference is handled.

The library calls (`malloc`, `hts_parse_format`, `bam_init1`, `sam_open`,
`sam_open_format`, `sam_hdr_read`, `sam_hdr_write`, `sam_read1`, `sam_write1`)
are collaborators whose code is not part of the program.  Their results are the
fields of a `World`; `main` is a total function from a `World` to the sequence
of calls it makes (`Run.trace`) and its exit status (`Run.ret`).
-/

namespace Cram

/-! ## C strings and sizes -/

/-- A C string: the characters before the terminating NUL, one per byte. -/
abbrev CString := List Char

/-- The C library `strlen`. -/
def strlen (s : CString) : Nat := s.length

/-- The operator `sizeof` on a string literal: its characters and the NUL. -/
def sizeof_lit (s : String) : Nat := s.toList.length + 1

/-- Arithmetic in `size_t` (64 bit) wraps. -/
def size_t_wrap (n : Nat) : Nat := n % 2 ^ 64

/-- Conversion of a `size_t` value to `int` (32 bit, two's complement). -/
def to_int (n : Nat) : Int :=
  if n % 2 ^ 32 < 2 ^ 31 then ((n % 2 ^ 32 : Nat) : Int) else ((n % 2 ^ 32 : Nat) : Int) - 2 ^ 32

/-- Conversion of an `int` argument to the `size_t` parameter of `malloc` and `snprintf`. -/
def to_size_t (i : Int) : Nat := (i % 2 ^ 64).toNat

/-- The string `snprintf(buf, size, ...)` leaves in `buf` when the formatted text is `s`:
at most `size - 1` characters are stored before the NUL. -/
def snprintf (size : Int) (s : CString) : CString := s.take (to_size_t size - 1)

/-- The value of `EXIT_SUCCESS`: `main` "returns 1 on failure 0 on success" (line 51). -/
def EXIT_SUCCESS : Int := 0

/-- The value of `EXIT_FAILURE`: `main` "returns 1 on failure 0 on success" (line 51). -/
def EXIT_FAILURE : Int := 1

/-! ## Resources, events and the collaborators -/

/-- An alignment record, as far as the program looks at it: an uninterpreted payload. -/
abbrev bam1_t := Nat

/-- The pointer variables of `main` that own a resource; index `k` stands for the
variable numbered `k + 1` (`outfile1` is `outfile 0`). -/
inductive Res where
  | in_samhdr
  | infile
  | outfile (k : Fin 4)
  | file (k : Fin 4)
  | reffmt1
  | reffmt2
  | fmt_specific (k : Fin 4)
  | bamdata
  deriving DecidableEq

/-- The two streams the program can print to. -/
inductive FILE where
  | stdout
  | stderr
  deriving DecidableEq

/-- One call made by `main`, with its arguments and its result.  Index `k` in
`hts_parse_format`, `sam_open_format`, `sam_hdr_write` and `sam_write1` stands for the
variables numbered `k + 1`: `sam_open_format 0` is the call
`outfile1 = sam_open_format(file1, "wc", &fmt1)`.  `printf` prints to standard output. -/
inductive Event where
  | fprintf (fp : FILE) (msg : String)
  | printf (msg : String)
  | malloc (r : Res) (size : Int) (ok : Bool)
  | hts_parse_format (k : Fin 4) (str : CString) (ret : Int) (specific : Bool)
  | bam_init1 (ok : Bool)
  | sam_open (path : CString) (ok : Bool)
  | sam_open_format (k : Fin 4) (path : CString) (ok : Bool)
  | sam_hdr_read (ok : Bool)
  | sam_hdr_write (k : Fin 4) (ret : Int)
  | sam_read1 (ret : Int)
  | sam_write1 (k : Fin 4) (b : bam1_t) (ret : Int)
  | sam_hdr_destroy
  | sam_close (r : Res)
  | free (r : Res)
  | hts_opt_free (k : Fin 4)
  | bam_destroy1
  deriving DecidableEq

/-- The command line and the results of every library call of one run.
`sam_read1_results` lists the successive results of `sam_read1` with the record each
one leaves in `bamdata`; a read past the end of the list returns -1 (end of file), so
the input is finite and every run ends.  `sam_write1_ret i k` is the result of writing
the record of iteration `i` to output `k`. -/
structure World where
  argc : Int
  inname : CString
  reffile : CString
  outdir : CString
  malloc_ok : Res → Bool
  hts_parse_format_ret : Fin 4 → Int
  hts_parse_format_specific : Fin 4 → Bool
  bam_init1_ok : Bool
  sam_open_ok : Bool
  sam_open_format_ok : Fin 4 → Bool
  sam_hdr_read_ok : Bool
  sam_hdr_write_ret : Fin 4 → Int
  sam_read1_results : List (Int × bam1_t)
  sam_write1_ret : Nat → Fin 4 → Int

/-- The local variables of `main` that the cleanup looks at, and `ret`.
A pointer is `none` or `false` when it is NULL. -/
structure Vars where
  file1 : Option CString := none
  file2 : Option CString := none
  file3 : Option CString := none
  file4 : Option CString := none
  reffmt1 : Option CString := none
  reffmt2 : Option CString := none
  ret : Int := EXIT_FAILURE
  infile : Bool := false
  outfile1 : Bool := false
  outfile2 : Bool := false
  outfile3 : Bool := false
  outfile4 : Bool := false
  in_samhdr : Bool := false
  bamdata : Bool := false
  fmt1_specific : Bool := false
  fmt2_specific : Bool := false
  fmt3_specific : Bool := false
  fmt4_specific : Bool := false

/-- What one run of `main` does: the calls in order, and the exit status. -/
structure Run where
  trace : List Event
  ret : Int
  deriving DecidableEq

/-! ## The program -/

/-- The function `print_usage` (lines 37-46). -/
def print_usage (fp : FILE) : List Event :=
  [.fprintf fp ("Usage: cram infile reffile outdir\n" ++
    "Dumps the input file alignments in cram format in given directory\n" ++
    "1.cram has external reference\n" ++
    "2.cram has reference embedded\n" ++
    "3.cram has autogenerated reference\n" ++
    "4.cram has no reference data in it\n")]

/-- The one-line conditional of the cleanup, `#define IF_OL(X,Y) if((X)) {(Y);}`. -/
def IF_OL (x : Bool) (y : Event) : List Event := if x then [y] else []

/-- The cleanup after label `end` (lines 149-165). -/
def teardown (v : Vars) : List Event :=
  IF_OL v.in_samhdr .sam_hdr_destroy ++
  IF_OL v.infile (.sam_close .infile) ++
  IF_OL v.outfile1 (.sam_close (.outfile 0)) ++
  IF_OL v.outfile2 (.sam_close (.outfile 1)) ++
  IF_OL v.outfile3 (.sam_close (.outfile 2)) ++
  IF_OL v.outfile4 (.sam_close (.outfile 3)) ++
  IF_OL v.file1.isSome (.free (.file 0)) ++
  IF_OL v.file2.isSome (.free (.file 1)) ++
  IF_OL v.file3.isSome (.free (.file 2)) ++
  IF_OL v.file4.isSome (.free (.file 3)) ++
  IF_OL v.reffmt1.isSome (.free .reffmt1) ++
  IF_OL v.reffmt2.isSome (.free .reffmt2) ++
  IF_OL v.fmt1_specific (.hts_opt_free 0) ++
  IF_OL v.fmt2_specific (.hts_opt_free 1) ++
  IF_OL v.fmt3_specific (.hts_opt_free 2) ++
  IF_OL v.fmt4_specific (.hts_opt_free 3) ++
  IF_OL v.bamdata .bam_destroy1

/-- Control reaches label `end` (by `goto end` or by falling out of the loop) with
variables `v` after the calls `tr`: the cleanup runs and `ret` is returned. -/
def finish (v : Vars) (tr : List Event) : Run :=
  { trace := tr ++ teardown v, ret := v.ret }

/-- The result of `malloc`: NULL, or a buffer (whose content is not yet written). -/
def malloc (w : World) (r : Res) : Option CString :=
  if w.malloc_ok r then some [] else none

/-- The `while` loop of lines 130-138, on the read results still to come, `i` records
having been copied.  The result is the calls made, and `some c` when the loop
condition failed with read result `c`, `none` when a write failed and the loop was left
by `goto end`. -/
def copyLoop (w : World) : Nat → List (Int × bam1_t) → List Event × Option Int
  | _, [] => ([.sam_read1 (-1)], some (-1))
  | i, (c, b) :: rest =>
    if c ≥ 0 then
      if w.sam_write1_ret i 0 < 0 then
        ([.sam_read1 c, .sam_write1 0 b (w.sam_write1_ret i 0),
          .printf "Failed to write output data\n"], none)
      else if w.sam_write1_ret i 1 < 0 then
        ([.sam_read1 c, .sam_write1 0 b (w.sam_write1_ret i 0),
          .sam_write1 1 b (w.sam_write1_ret i 1),
          .printf "Failed to write output data\n"], none)
      else if w.sam_write1_ret i 2 < 0 then
        ([.sam_read1 c, .sam_write1 0 b (w.sam_write1_ret i 0),
          .sam_write1 1 b (w.sam_write1_ret i 1),
          .sam_write1 2 b (w.sam_write1_ret i 2),
          .printf "Failed to write output data\n"], none)
      else if w.sam_write1_ret i 3 < 0 then
        ([.sam_read1 c, .sam_write1 0 b (w.sam_write1_ret i 0),
          .sam_write1 1 b (w.sam_write1_ret i 1),
          .sam_write1 2 b (w.sam_write1_ret i 2),
          .sam_write1 3 b (w.sam_write1_ret i 3),
          .printf "Failed to write output data\n"], none)
      else
        ([.sam_read1 c, .sam_write1 0 b (w.sam_write1_ret i 0),
          .sam_write1 1 b (w.sam_write1_ret i 1),
          .sam_write1 2 b (w.sam_write1_ret i 2),
          .sam_write1 3 b (w.sam_write1_ret i 3)] ++ (copyLoop w (i + 1) rest).1,
         (copyLoop w (i + 1) rest).2)
    else ([.sam_read1 c], some c)

/-- The names of the four output files, as written in the format strings of lines 88-89. -/
def outname : Fin 4 → CString
  | 0 => "/1.cram".toList
  | 1 => "/2.cram".toList
  | 2 => "/3.cram".toList
  | 3 => "/4.cram".toList

/-- The sizes computed at lines 73-75 from the lengths of `reffile` and `outdir`. -/
def size1 (w : World) : Int :=
  to_int (size_t_wrap (1 * (strlen w.reffile + sizeof_lit "cram,reference=" + 1)))

def size2 (w : World) : Int :=
  to_int (size_t_wrap (1 * (strlen w.reffile + sizeof_lit "cram,embed_ref=1,reference=" + 1)))

def size3 (w : World) : Int :=
  to_int (size_t_wrap (1 * (strlen w.outdir + sizeof_lit "/1.cram" + 1)))

/-- The six `malloc` calls of lines 77-79, in order. -/
def mallocCalls (w : World) : List Event :=
  [.malloc .reffmt1 (size1 w) (w.malloc_ok .reffmt1), .malloc .reffmt2 (size2 w) (w.malloc_ok .reffmt2),
   .malloc (.file 0) (size3 w) (w.malloc_ok (.file 0)), .malloc (.file 1) (size3 w) (w.malloc_ok (.file 1)),
   .malloc (.file 2) (size3 w) (w.malloc_ok (.file 2)), .malloc (.file 3) (size3 w) (w.malloc_ok (.file 3))]

/-- The content of `reffmt1` after the `snprintf` of line 86. -/
def s_reffmt1 (w : World) : CString := snprintf (size1 w) ("cram,reference=".toList ++ w.reffile)

/-- The content of `reffmt2` after the `snprintf` of line 87. -/
def s_reffmt2 (w : World) : CString :=
  snprintf (size2 w) ("cram,embed_ref=1,reference=".toList ++ w.reffile)

/-- The content of `file1` .. `file4` after the `snprintf` calls of lines 88-89. -/
def s_file (w : World) (k : Fin 4) : CString := snprintf (size3 w) (w.outdir ++ outname k)

/-- The option string given to the call of `hts_parse_format` on `fmt1` .. `fmt4`
(lines 91-94). -/
def optionString (w : World) : Fin 4 → CString
  | 0 => s_reffmt1 w
  | 1 => s_reffmt2 w
  | 2 => "cram,embed_ref=2".toList
  | 3 => "cram,no_ref=1".toList

/-- The call of `hts_parse_format` on format `k` with its result. -/
def parseCall (w : World) (k : Fin 4) : Event :=
  .hts_parse_format k (optionString w k) (w.hts_parse_format_ret k) (w.hts_parse_format_specific k)

/-- The four `sam_open_format` calls of lines 110-111, in order. -/
def openCalls (w : World) : List Event :=
  [.sam_open_format 0 (s_file w 0) (w.sam_open_format_ok 0),
   .sam_open_format 1 (s_file w 1) (w.sam_open_format_ok 1),
   .sam_open_format 2 (s_file w 2) (w.sam_open_format_ok 2),
   .sam_open_format 3 (s_file w 3) (w.sam_open_format_ok 3)]

/-- The function `main` (lines 53-168).  Every pointer variable starts as NULL and is
assigned once, so each exit to label `end` lists the variables assigned so far; the
others still have their initial value. -/
def main (w : World) : Run :=
  if w.argc ≠ 4 then finish {} (print_usage .stdout) else
  -- allocate space for option string and output file names
  let reffmt1 := malloc w .reffmt1
  let reffmt2 := malloc w .reffmt2
  let file1 := malloc w (.file 0)
  let file2 := malloc w (.file 1)
  let file3 := malloc w (.file 2)
  let file4 := malloc w (.file 3)
  let tr := mallocCalls w
  if file1.isNone || file2.isNone || file3.isNone || file4.isNone
      || reffmt1.isNone || reffmt2.isNone then
    finish { file1, file2, file3, file4, reffmt1, reffmt2 }
      (tr ++ [.printf "Failed to create buffers\n"]) else
  -- the six buffers are not NULL here; snprintf fills them
  let reffmt1 := some (s_reffmt1 w)
  let reffmt2 := some (s_reffmt2 w)
  let file1 := some (s_file w 0)
  let file2 := some (s_file w 1)
  let file3 := some (s_file w 2)
  let file4 := some (s_file w 3)
  -- hts_parse_format(&fmt1, reffmt1) == -1 || ... || hts_parse_format(&fmt4, "cram,no_ref=1") == -1
  let tr := tr ++ [parseCall w 0]
  let fmt1_specific := w.hts_parse_format_specific 0
  if w.hts_parse_format_ret 0 = -1 then
    finish { file1, file2, file3, file4, reffmt1, reffmt2, fmt1_specific }
      (tr ++ [.printf "Failed to set output option\n"]) else
  let tr := tr ++ [parseCall w 1]
  let fmt2_specific := w.hts_parse_format_specific 1
  if w.hts_parse_format_ret 1 = -1 then
    finish { file1, file2, file3, file4, reffmt1, reffmt2, fmt1_specific, fmt2_specific }
      (tr ++ [.printf "Failed to set output option\n"]) else
  let tr := tr ++ [parseCall w 2]
  let fmt3_specific := w.hts_parse_format_specific 2
  if w.hts_parse_format_ret 2 = -1 then
    finish { file1, file2, file3, file4, reffmt1, reffmt2, fmt1_specific, fmt2_specific, fmt3_specific }
      (tr ++ [.printf "Failed to set output option\n"]) else
  let tr := tr ++ [parseCall w 3]
  let fmt4_specific := w.hts_parse_format_specific 3
  if w.hts_parse_format_ret 3 = -1 then
    finish { file1, file2, file3, file4, reffmt1, reffmt2,
             fmt1_specific, fmt2_specific, fmt3_specific, fmt4_specific }
      (tr ++ [.printf "Failed to set output option\n"]) else
  -- bam data storage
  let bamdata := w.bam_init1_ok
  let tr := tr ++ [.bam_init1 w.bam_init1_ok]
  if !bamdata then
    finish { file1, file2, file3, file4, reffmt1, reffmt2,
             fmt1_specific, fmt2_specific, fmt3_specific, fmt4_specific, bamdata }
      (tr ++ [.printf "Failed to initialize bamdata\n"]) else
  -- open input file
  let infile := w.sam_open_ok
  let tr := tr ++ [.sam_open w.inname w.sam_open_ok]
  if !infile then
    finish { file1, file2, file3, file4, reffmt1, reffmt2,
             fmt1_specific, fmt2_specific, fmt3_specific, fmt4_specific, bamdata, infile }
      (tr ++ [.printf ("Could not open " ++ String.mk w.inname ++ "\n")]) else
  -- open output files
  let outfile1 := w.sam_open_format_ok 0
  let outfile2 := w.sam_open_format_ok 1
  let outfile3 := w.sam_open_format_ok 2
  let outfile4 := w.sam_open_format_ok 3
  let tr := tr ++ openCalls w
  if !outfile1 || !outfile2 || !outfile3 || !outfile4 then
    finish { file1, file2, file3, file4, reffmt1, reffmt2,
             fmt1_specific, fmt2_specific, fmt3_specific, fmt4_specific, bamdata, infile,
             outfile1, outfile2, outfile3, outfile4 }
      (tr ++ [.printf "Could not open output file\n"]) else
  -- read header
  let in_samhdr := w.sam_hdr_read_ok
  let tr := tr ++ [.sam_hdr_read w.sam_hdr_read_ok]
  -- from here on every pointer variable has been assigned
  let v : Vars :=
    { file1, file2, file3, file4, reffmt1, reffmt2,
      fmt1_specific, fmt2_specific, fmt3_specific, fmt4_specific, bamdata, infile,
      outfile1, outfile2, outfile3, outfile4, in_samhdr }
  if !in_samhdr then
    finish v (tr ++ [.printf "Failed to read header from file!\n"]) else
  -- write header: sam_hdr_write(outfile1, in_samhdr) == -1 || ...
  let tr := tr ++ [.sam_hdr_write 0 (w.sam_hdr_write_ret 0)]
  if w.sam_hdr_write_ret 0 = -1 then
    finish v (tr ++ [.printf "Failed to write header\n"]) else
  let tr := tr ++ [.sam_hdr_write 1 (w.sam_hdr_write_ret 1)]
  if w.sam_hdr_write_ret 1 = -1 then
    finish v (tr ++ [.printf "Failed to write header\n"]) else
  let tr := tr ++ [.sam_hdr_write 2 (w.sam_hdr_write_ret 2)]
  if w.sam_hdr_write_ret 2 = -1 then
    finish v (tr ++ [.printf "Failed to write header\n"]) else
  let tr := tr ++ [.sam_hdr_write 3 (w.sam_hdr_write_ret 3)]
  if w.sam_hdr_write_ret 3 = -1 then
    finish v (tr ++ [.printf "Failed to write header\n"]) else
  -- copy the records
  match copyLoop w 0 w.sam_read1_results with
  | (ltr, none) => finish v (tr ++ ltr)
  | (ltr, some c) =>
    if -1 = c then finish { v with ret := EXIT_SUCCESS } (tr ++ ltr)
    else finish v (tr ++ ltr ++ [.printf "Error in reading data\n"])

/-! ## The stages of a run -/

/-- Three positional arguments were given. -/
def ArgsOk (w : World) : Prop := w.argc = 4

/-- All six `malloc` calls returned a buffer. -/
def BuffersOk (w : World) : Prop :=
  w.malloc_ok (.file 0) = true ∧ w.malloc_ok (.file 1) = true ∧ w.malloc_ok (.file 2) = true ∧
  w.malloc_ok (.file 3) = true ∧ w.malloc_ok .reffmt1 = true ∧ w.malloc_ok .reffmt2 = true

/-- None of the four `hts_parse_format` calls returned -1. -/
def FormatsOk (w : World) : Prop :=
  w.hts_parse_format_ret 0 ≠ -1 ∧ w.hts_parse_format_ret 1 ≠ -1 ∧
  w.hts_parse_format_ret 2 ≠ -1 ∧ w.hts_parse_format_ret 3 ≠ -1

/-- All four output files were opened. -/
def OutputsOk (w : World) : Prop :=
  w.sam_open_format_ok 0 = true ∧ w.sam_open_format_ok 1 = true ∧
  w.sam_open_format_ok 2 = true ∧ w.sam_open_format_ok 3 = true

/-- None of the four `sam_hdr_write` calls returned -1. -/
def HeaderWritesOk (w : World) : Prop :=
  w.sam_hdr_write_ret 0 ≠ -1 ∧ w.sam_hdr_write_ret 1 ≠ -1 ∧
  w.sam_hdr_write_ret 2 ≠ -1 ∧ w.sam_hdr_write_ret 3 ≠ -1

instance (w : World) : Decidable (HeaderWritesOk w) := by
  unfold HeaderWritesOk
  infer_instance

/-- The run gets as far as the call of `sam_open` on the input (line 105). -/
def ReachesInputOpen (w : World) : Prop :=
  ArgsOk w ∧ BuffersOk w ∧ FormatsOk w ∧ w.bam_init1_ok = true

/-- The run gets as far as the calls of `sam_open_format` (lines 110-111). -/
def ReachesOutputOpen (w : World) : Prop := ReachesInputOpen w ∧ w.sam_open_ok = true

/-- The run gets as far as the call of `sam_hdr_read` (line 118). -/
def ReachesHeaderRead (w : World) : Prop := ReachesOutputOpen w ∧ OutputsOk w

/-- The run gets as far as the first call of `sam_hdr_write` (line 123). -/
def ReachesHeaderWrite (w : World) : Prop := ReachesHeaderRead w ∧ w.sam_hdr_read_ok = true

/-- The run gets as far as the copy loop (line 130). -/
def ReachesLoop (w : World) : Prop := ReachesHeaderWrite w ∧ HeaderWritesOk w

instance (w : World) : Decidable (ReachesInputOpen w) := by
  unfold ReachesInputOpen ArgsOk BuffersOk FormatsOk
  infer_instance

instance (w : World) : Decidable (ReachesOutputOpen w) := by
  unfold ReachesOutputOpen
  infer_instance

instance (w : World) : Decidable (ReachesHeaderRead w) := by
  unfold ReachesHeaderRead OutputsOk
  infer_instance

instance (w : World) : Decidable (ReachesHeaderWrite w) := by
  unfold ReachesHeaderWrite
  infer_instance

instance (w : World) : Decidable (ReachesLoop w) := by
  unfold ReachesLoop HeaderWritesOk
  infer_instance

/-- The buffers after the `snprintf` calls of lines 86-89. -/
def filledBuffers (w : World) : Vars :=
  { file1 := some (s_file w 0), file2 := some (s_file w 1), file3 := some (s_file w 2),
    file4 := some (s_file w 3), reffmt1 := some (s_reffmt1 w), reffmt2 := some (s_reffmt2 w) }

/-- The variables once the four formats are parsed. -/
def parsedVars (w : World) : Vars :=
  { filledBuffers w with
    fmt1_specific := w.hts_parse_format_specific 0, fmt2_specific := w.hts_parse_format_specific 1,
    fmt3_specific := w.hts_parse_format_specific 2, fmt4_specific := w.hts_parse_format_specific 3 }

/-- The calls up to and including the fourth `hts_parse_format`. -/
def parsedCalls (w : World) : List Event :=
  mallocCalls w ++ [parseCall w 0, parseCall w 1, parseCall w 2, parseCall w 3]

/-- The variables of a run in which the header was read: every pointer is set. -/
def fullVars (w : World) : Vars :=
  { parsedVars w with
    bamdata := true, infile := true, outfile1 := true, outfile2 := true, outfile3 := true,
    outfile4 := true, in_samhdr := true }

/-- The calls of a run up to and including a successful `sam_hdr_read`. -/
def headerReadCalls (w : World) : List Event :=
  parsedCalls w ++ [.bam_init1 true, .sam_open w.inname true] ++ openCalls w ++ [.sam_hdr_read true]

/-- The four `sam_hdr_write` calls of lines 123-124. -/
def headerWriteCalls (w : World) : List Event :=
  [.sam_hdr_write 0 (w.sam_hdr_write_ret 0), .sam_hdr_write 1 (w.sam_hdr_write_ret 1),
   .sam_hdr_write 2 (w.sam_hdr_write_ret 2), .sam_hdr_write 3 (w.sam_hdr_write_ret 3)]

/-! ## Observations on a trace -/

/-- The resource an event acquires: a call that returned a non-NULL pointer (for
`hts_parse_format`: that left `specific` non-NULL). -/
def Event.acquires : Event → Option Res
  | .malloc r _ ok => if ok then some r else none
  | .hts_parse_format k _ _ specific => if specific then some (.fmt_specific k) else none
  | .bam_init1 ok => if ok then some .bamdata else none
  | .sam_open _ ok => if ok then some .infile else none
  | .sam_open_format k _ ok => if ok then some (.outfile k) else none
  | .sam_hdr_read ok => if ok then some .in_samhdr else none
  | _ => none

/-- The resource an event releases. -/
def Event.releases : Event → Option Res
  | .sam_hdr_destroy => some .in_samhdr
  | .sam_close r => some r
  | .free r => some r
  | .hts_opt_free k => some (.fmt_specific k)
  | .bam_destroy1 => some .bamdata
  | _ => none

/-- How many times resource `r` is acquired in a trace. -/
def acquireCount (r : Res) (tr : List Event) : Nat := tr.countP (fun e => e.acquires = some r)

/-- How many times resource `r` is released in a trace. -/
def releaseCount (r : Res) (tr : List Event) : Nat := tr.countP (fun e => e.releases = some r)

/-- The variable that holds resource `r` is not NULL. -/
def Vars.holds (v : Vars) : Res → Bool
  | .in_samhdr => v.in_samhdr
  | .infile => v.infile
  | .outfile 0 => v.outfile1
  | .outfile 1 => v.outfile2
  | .outfile 2 => v.outfile3
  | .outfile 3 => v.outfile4
  | .file 0 => v.file1.isSome
  | .file 1 => v.file2.isSome
  | .file 2 => v.file3.isSome
  | .file 3 => v.file4.isSome
  | .reffmt1 => v.reffmt1.isSome
  | .reffmt2 => v.reffmt2.isSome
  | .fmt_specific 0 => v.fmt1_specific
  | .fmt_specific 1 => v.fmt2_specific
  | .fmt_specific 2 => v.fmt3_specific
  | .fmt_specific 3 => v.fmt4_specific
  | .bamdata => v.bamdata

/-- The records `sam_read1` yields before its first negative result. -/
def recordsRead : List (Int × bam1_t) → List bam1_t
  | [] => []
  | (c, b) :: rest => if c ≥ 0 then b :: recordsRead rest else []

/-- The first negative result of `sam_read1`, the one that ends the loop; -1 (end of
file) when the listed results are all non-negative. -/
def endResult : List (Int × bam1_t) → Int
  | [] => -1
  | (c, _) :: rest => if c ≥ 0 then endResult rest else c

/-- Every `sam_write1` of the `n` records from index `i` on returned a non-negative result. -/
def WritesOk (w : World) (i n : Nat) : Prop :=
  ∀ j, j < n → ∀ k : Fin 4, 0 ≤ w.sam_write1_ret (i + j) k

instance (w : World) (i n : Nat) : Decidable (WritesOk w i n) := by
  unfold WritesOk
  infer_instance

/-- What an output file is given by a write call. -/
inductive Written where
  | header
  | record (b : bam1_t)
  deriving DecidableEq

/-- What the event writes to output `k`, if it is a write to output `k`. -/
def Event.writtenTo (k : Fin 4) : Event → Option Written
  | .sam_hdr_write j _ => if j = k then some .header else none
  | .sam_write1 j b _ => if j = k then some (.record b) else none
  | _ => none

/-- The sequence of writes output `k` receives in a trace. -/
def writesTo (k : Fin 4) (tr : List Event) : List Written := tr.filterMap (Event.writtenTo k)

/-- A step of the copy loop: a call of `sam_read1`, or a call of `sam_write1` on
output `k` with record `b`. -/
inductive CopyStep where
  | read
  | write (k : Fin 4) (b : bam1_t)
  deriving DecidableEq

/-- The copy step an event is, if any. -/
def Event.copyStep : Event → Option CopyStep
  | .sam_read1 _ => some .read
  | .sam_write1 k b _ => some (.write k b)
  | _ => none

/-- The sequence of reads and record writes of a trace. -/
def copySteps (tr : List Event) : List CopyStep := tr.filterMap Event.copyStep

/-- One full iteration of the loop on record `b`: the read, then the writes to
outputs 0, 1, 2, 3 in this order. -/
def fullIteration (b : bam1_t) : List CopyStep :=
  [.read, .write 0 b, .write 1 b, .write 2 b, .write 3 b]

/-! ## Properties of runs -/

/-- The condition under which a run succeeds: every stage up to the loop succeeded,
every record write returned a non-negative result, and the read that ended the loop
returned -1. -/
def Succeeds (w : World) : Prop :=
  ReachesLoop w ∧ WritesOk w 0 (recordsRead w.sam_read1_results).length ∧
    endResult w.sam_read1_results = -1

/-- The releases of a run all come in a final segment, after every acquisition; each
resource is acquired at most once, and released as many times as it was acquired. -/
def ReleasesWhatItAcquired (run : Run) : Prop :=
  ∃ body td, run.trace = body ++ td ∧
    (∀ e ∈ body, e.releases = none) ∧ (∀ e ∈ td, e.acquires = none) ∧
    ∀ r, acquireCount r body ≤ 1 ∧ releaseCount r td = acquireCount r body

/-- The event closes a stream. -/
def Event.isClose : Event → Bool
  | .sam_close _ => true
  | _ => false

/-- The header release comes after every stream close: no stream is closed after a
call of `sam_hdr_destroy`. -/
def HeaderReleasedAfterCloses (tr : List Event) : Prop :=
  ∀ pre post, tr = pre ++ .sam_hdr_destroy :: post → ∀ e ∈ post, e.isClose = false

/-- The six calls the cleanup starts with when the header was read. -/
def headerAndStreamReleases : List Event :=
  [.sam_hdr_destroy, .sam_close .infile, .sam_close (.outfile 0), .sam_close (.outfile 1),
   .sam_close (.outfile 2), .sam_close (.outfile 3)]

/-- The releases of the buffers and of the option lists of the four formats, as the
cleanup makes them once the four formats are parsed. -/
def formatSpecReleases (w : World) : List Event :=
  [.free (.file 0), .free (.file 1), .free (.file 2), .free (.file 3), .free .reffmt1, .free .reffmt2] ++
  IF_OL (w.hts_parse_format_specific 0) (.hts_opt_free 0) ++
  IF_OL (w.hts_parse_format_specific 1) (.hts_opt_free 1) ++
  IF_OL (w.hts_parse_format_specific 2) (.hts_opt_free 2) ++
  IF_OL (w.hts_parse_format_specific 3) (.hts_opt_free 3)

/-- The resources that make up the four format specifications: the path and option
string buffers and the option lists of the formats. -/
def Res.isFormatSpec : Res → Bool
  | .file _ => true
  | .reffmt1 => true
  | .reffmt2 => true
  | .fmt_specific _ => true
  | _ => false

/-- The output the event closes, if it closes an output stream. -/
def Event.closedOutput : Event → Option (Fin 4)
  | .sam_close (.outfile k) => some k
  | _ => none

/-- The output streams closed in a trace, in order. -/
def closedOutputs (tr : List Event) : List (Fin 4) := tr.filterMap Event.closedOutput

/-- The output the event opens, if it is a call of `sam_open_format` that returned a
stream. -/
def Event.openedOutput : Event → Option (Fin 4)
  | .sam_open_format k _ ok => if ok then some k else none
  | _ => none

/-- The output streams opened in a trace, in order. -/
def openedOutputs (tr : List Event) : List (Fin 4) := tr.filterMap Event.openedOutput

/-- The event is a call of `sam_hdr_read`. -/
def Event.isHeaderRead : Event → Bool
  | .sam_hdr_read _ => true
  | _ => false

/-- The writes of record `b` to the outputs 0 .. `k`, in this order. -/
def writesUpTo (k : Fin 4) (b : bam1_t) : List CopyStep :=
  ((List.finRange 4).filter (fun j => j ≤ k)).map (fun j => .write j b)

/-- What `main` does from the loop on (lines 130-168), given the result of the loop. -/
def loopExit (w : World) : List Event × Option Int → Run
  | (ltr, none) => finish (fullVars w) (headerReadCalls w ++ headerWriteCalls w ++ ltr)
  | (ltr, some c) =>
    if -1 = c then
      finish { fullVars w with ret := EXIT_SUCCESS } (headerReadCalls w ++ headerWriteCalls w ++ ltr)
    else
      finish (fullVars w)
        (headerReadCalls w ++ headerWriteCalls w ++ ltr ++ [.printf "Error in reading data\n"])

/-- The event is a call of `sam_hdr_write`. -/
def Event.isHeaderWrite : Event → Bool
  | .sam_hdr_write _ _ => true
  | _ => false

/-- The calls of `sam_hdr_write` of a trace, in order. -/
def headerWrites (tr : List Event) : List Event := tr.filter Event.isHeaderWrite

/-- The path the specification gives output `k`: the output directory, a slash, the
number `k + 1` and the extension. -/
def expectedPath (outdir : CString) (k : Fin 4) : CString :=
  outdir ++ "/".toList ++ (toString (k.val + 1)).toList ++ ".cram".toList

/-- The option string the specification gives output `k`: external reference, embedded
reference, automatically embedded reference, no reference. -/
def expectedOption (reffile : CString) : Fin 4 → CString
  | 0 => "cram,reference=".toList ++ reffile
  | 1 => "cram,embed_ref=1,reference=".toList ++ reffile
  | 2 => "cram,embed_ref=2".toList
  | 3 => "cram,no_ref=1".toList

/-- The output and path of a call of `sam_open_format`. -/
def Event.openedPath : Event → Option (Fin 4 × CString)
  | .sam_open_format k p _ => some (k, p)
  | _ => none

/-- The format and option string of a call of `hts_parse_format`. -/
def Event.parsedOption : Event → Option (Fin 4 × CString)
  | .hts_parse_format k s _ _ => some (k, s)
  | _ => none

/-- The paths given to `sam_open_format` at lines 110-111, with their outputs. -/
def openArguments (w : World) : List (Fin 4 × CString) :=
  [(0, s_file w 0), (1, s_file w 1), (2, s_file w 2), (3, s_file w 3)]

/-- The option strings given to `hts_parse_format` at lines 91-94, with their formats. -/
def parseArguments (w : World) : List (Fin 4 × CString) :=
  [(0, optionString w 0), (1, optionString w 1), (2, optionString w 2), (3, optionString w 3)]

/-- The property of a run that the lemma on the calls of `main` states. -/
def CallsAsWritten (w : World) (r : Run) : Prop :=
  (∀ x ∈ r.trace.filterMap Event.openedPath, x.2 = s_file w x.1) ∧
  (∀ x ∈ r.trace.filterMap Event.parsedOption, x.2 = optionString w x.1) ∧
  (ReachesOutputOpen w →
    r.trace.filterMap Event.openedPath = openArguments w ∧
    r.trace.filterMap Event.parsedOption = parseArguments w)

/-- The stage predicates on the results of the calls say which calls the run makes:
the run reaches a stage exactly when the call that opens the stage is in its trace. -/
def StagesAsInTrace (w : World) (r : Run) : Prop :=
  (ReachesInputOpen w ↔ ∃ ok, Event.sam_open w.inname ok ∈ r.trace) ∧
  (ReachesOutputOpen w ↔ Event.sam_open w.inname true ∈ r.trace) ∧
  (ReachesHeaderRead w ↔ ∃ ok, Event.sam_hdr_read ok ∈ r.trace) ∧
  (ReachesHeaderWrite w ↔ Event.sam_hdr_read true ∈ r.trace) ∧
  (ReachesLoop w ↔ ∃ c, Event.sam_read1 c ∈ r.trace)

/-! ## Example runs -/

/-- A run in which every call succeeds, on an input that holds the given records. -/
def okWorld (recs : List bam1_t) : World :=
  { argc := 4, inname := "in.sam".toList, reffile := "ref.fa".toList, outdir := "out".toList,
    malloc_ok := fun _ => true,
    hts_parse_format_ret := fun _ => 0, hts_parse_format_specific := fun _ => true,
    bam_init1_ok := true, sam_open_ok := true, sam_open_format_ok := fun _ => true,
    sam_hdr_read_ok := true, sam_hdr_write_ret := fun _ => 0,
    sam_read1_results := recs.map (fun b => (0, b)),
    sam_write1_ret := fun _ _ => 0 }

/-- A run given a single argument instead of three. -/
def usageWorld : World := { okWorld [] with argc := 2 }

/-- A run in which the input file cannot be opened. -/
def inputFailWorld : World := { okWorld [7] with sam_open_ok := false }

/-- A run in which the third output file (3.cram) cannot be opened and the others can. -/
def outputFailWorld : World :=
  { okWorld [7] with sam_open_format_ok := fun k => decide (k ≠ 2) }

/-- A run in which the write of the second record to output 2 fails. -/
def writeFailWorld : World :=
  { okWorld [7, 8, 9] with sam_write1_ret := fun i k => if i = 1 ∧ k = 2 then -5 else 0 }

/-- A run in which every header write returns -2, a negative value other than -1. -/
def headerMinusTwoWorld : World := { okWorld [7] with sam_hdr_write_ret := fun _ => -2 }

/-- A run in which the header write to output 1 returns -1. -/
def headerFailWorld : World :=
  { okWorld [7] with sam_hdr_write_ret := fun k => if k = 1 then -1 else 0 }

/-! ## Lemmas and theorems -/

/-- The loop acquires and releases nothing. -/
theorem copyLoop_acquires (w : World) (l : List (Int × bam1_t)) :
    ∀ i, ∀ e ∈ (copyLoop w i l).1, e.acquires = none ∧ e.releases = none := by
  induction l with
  | nil => intro i e he; simp [copyLoop] at he; subst he; simp [Event.acquires, Event.releases]
  | cons p rest ih =>
    intro i e he
    obtain ⟨c, b⟩ := p
    simp only [copyLoop] at he
    split_ifs at he <;> simp at he <;>
      first
      | (rcases he with h | h | h | h | h | h | h <;> first | (subst h; simp [Event.acquires, Event.releases]) | exact ih _ _ h)
      | (rcases he with h | h | h | h | h | h <;> first | (subst h; simp [Event.acquires, Event.releases]) | exact ih _ _ h)
      | (rcases he with h | h | h | h | h <;> first | (subst h; simp [Event.acquires, Event.releases]) | exact ih _ _ h)
      | (rcases he with h | h | h | h <;> first | (subst h; simp [Event.acquires, Event.releases]) | exact ih _ _ h)
      | (rcases he with h | h | h <;> first | (subst h; simp [Event.acquires, Event.releases]) | exact ih _ _ h)
      | (subst he; simp [Event.acquires, Event.releases])

theorem IF_OL_forall (P : Event → Prop) (x : Bool) (y : Event) (h : P y) :
    ∀ e ∈ IF_OL x y, P e := by
  intro e he
  unfold IF_OL at he
  split at he <;> simp at he
  subst he
  exact h

/-- The cleanup releases a resource once when its variable is set, and not otherwise. -/
theorem teardown_releaseCount (v : Vars) (r : Res) :
    releaseCount r (teardown v) = if v.holds r then 1 else 0 := by
  simp only [releaseCount, teardown, List.countP_append, IF_OL]
  cases r with
  | outfile k => fin_cases k <;> simp [Vars.holds, Event.releases, List.countP_cons, apply_ite]
  | file k =>
    fin_cases k <;> simp [Vars.holds, Event.releases, List.countP_cons, apply_ite] <;>
      split <;> simp_all [Option.isSome_iff_ne_none]
  | fmt_specific k => fin_cases k <;> simp [Vars.holds, Event.releases, List.countP_cons, apply_ite]
  | reffmt1 =>
    simp [Vars.holds, Event.releases, List.countP_cons, apply_ite]
    split <;> simp_all [Option.isSome_iff_ne_none]
  | reffmt2 =>
    simp [Vars.holds, Event.releases, List.countP_cons, apply_ite]
    split <;> simp_all [Option.isSome_iff_ne_none]
  | _ => simp [Vars.holds, Event.releases, List.countP_cons, apply_ite]

theorem teardown_acquires (v : Vars) : ∀ e ∈ teardown v, e.acquires = none := by
  unfold teardown
  simp only [List.forall_mem_append]
  repeat' apply And.intro
  all_goals (apply IF_OL_forall; rfl)

/-- Case analysis on the exit taken by `main`: a property holds of every run when it
holds of the run of each of the paths to label `end`. -/
theorem main_ind (w : World) (P : Run → Prop)
    (h_usage : w.argc ≠ 4 → P (finish {} (print_usage .stdout)))
    (h_malloc : ArgsOk w → ¬ BuffersOk w →
      P (finish { file1 := malloc w (.file 0), file2 := malloc w (.file 1), file3 := malloc w (.file 2),
                  file4 := malloc w (.file 3), reffmt1 := malloc w .reffmt1, reffmt2 := malloc w .reffmt2 }
          (mallocCalls w ++ [.printf "Failed to create buffers\n"])))
    (h_parse0 : ArgsOk w → BuffersOk w → w.hts_parse_format_ret 0 = -1 →
      P (finish { filledBuffers w with fmt1_specific := w.hts_parse_format_specific 0 }
          (mallocCalls w ++ [parseCall w 0] ++ [.printf "Failed to set output option\n"])))
    (h_parse1 : ArgsOk w → BuffersOk w → w.hts_parse_format_ret 0 ≠ -1 →
      w.hts_parse_format_ret 1 = -1 →
      P (finish { filledBuffers w with fmt1_specific := w.hts_parse_format_specific 0,
                                       fmt2_specific := w.hts_parse_format_specific 1 }
          (mallocCalls w ++ [parseCall w 0, parseCall w 1] ++ [.printf "Failed to set output option\n"])))
    (h_parse2 : ArgsOk w → BuffersOk w → w.hts_parse_format_ret 0 ≠ -1 →
      w.hts_parse_format_ret 1 ≠ -1 → w.hts_parse_format_ret 2 = -1 →
      P (finish { filledBuffers w with fmt1_specific := w.hts_parse_format_specific 0,
                                       fmt2_specific := w.hts_parse_format_specific 1,
                                       fmt3_specific := w.hts_parse_format_specific 2 }
          (mallocCalls w ++ [parseCall w 0, parseCall w 1, parseCall w 2] ++
            [.printf "Failed to set output option\n"])))
    (h_parse3 : ArgsOk w → BuffersOk w → w.hts_parse_format_ret 0 ≠ -1 →
      w.hts_parse_format_ret 1 ≠ -1 → w.hts_parse_format_ret 2 ≠ -1 → w.hts_parse_format_ret 3 = -1 →
      P (finish (parsedVars w) (parsedCalls w ++ [.printf "Failed to set output option\n"])))
    (h_bam : ArgsOk w → BuffersOk w → FormatsOk w → w.bam_init1_ok = false →
      P (finish (parsedVars w)
          (parsedCalls w ++ [.bam_init1 false] ++ [.printf "Failed to initialize bamdata\n"])))
    (h_input : ReachesInputOpen w → w.sam_open_ok = false →
      P (finish { parsedVars w with bamdata := true }
          (parsedCalls w ++ [.bam_init1 true, .sam_open w.inname false] ++
            [.printf ("Could not open " ++ String.mk w.inname ++ "\n")])))
    (h_output : ReachesOutputOpen w → ¬ OutputsOk w →
      P (finish { parsedVars w with
                  bamdata := true, infile := true,
                  outfile1 := w.sam_open_format_ok 0, outfile2 := w.sam_open_format_ok 1,
                  outfile3 := w.sam_open_format_ok 2, outfile4 := w.sam_open_format_ok 3 }
          (parsedCalls w ++ [.bam_init1 true, .sam_open w.inname true] ++ openCalls w ++
            [.printf "Could not open output file\n"])))
    (h_hdr_read : ReachesHeaderRead w → w.sam_hdr_read_ok = false →
      P (finish { fullVars w with in_samhdr := false }
          (parsedCalls w ++ [.bam_init1 true, .sam_open w.inname true] ++ openCalls w ++
            [.sam_hdr_read false] ++ [.printf "Failed to read header from file!\n"])))
    (h_hdr_write0 : ReachesHeaderWrite w → w.sam_hdr_write_ret 0 = -1 →
      P (finish (fullVars w)
          (headerReadCalls w ++ (headerWriteCalls w).take 1 ++ [.printf "Failed to write header\n"])))
    (h_hdr_write1 : ReachesHeaderWrite w → w.sam_hdr_write_ret 0 ≠ -1 → w.sam_hdr_write_ret 1 = -1 →
      P (finish (fullVars w)
          (headerReadCalls w ++ (headerWriteCalls w).take 2 ++ [.printf "Failed to write header\n"])))
    (h_hdr_write2 : ReachesHeaderWrite w → w.sam_hdr_write_ret 0 ≠ -1 → w.sam_hdr_write_ret 1 ≠ -1 →
      w.sam_hdr_write_ret 2 = -1 →
      P (finish (fullVars w)
          (headerReadCalls w ++ (headerWriteCalls w).take 3 ++ [.printf "Failed to write header\n"])))
    (h_hdr_write3 : ReachesHeaderWrite w → w.sam_hdr_write_ret 0 ≠ -1 → w.sam_hdr_write_ret 1 ≠ -1 →
      w.sam_hdr_write_ret 2 ≠ -1 → w.sam_hdr_write_ret 3 = -1 →
      P (finish (fullVars w)
          (headerReadCalls w ++ headerWriteCalls w ++ [.printf "Failed to write header\n"])))
    (h_write : ReachesLoop w → ∀ ltr, copyLoop w 0 w.sam_read1_results = (ltr, none) →
      P (finish (fullVars w) (headerReadCalls w ++ headerWriteCalls w ++ ltr)))
    (h_eof : ReachesLoop w → ∀ ltr, copyLoop w 0 w.sam_read1_results = (ltr, some (-1)) →
      P (finish { fullVars w with ret := EXIT_SUCCESS } (headerReadCalls w ++ headerWriteCalls w ++ ltr)))
    (h_read : ReachesLoop w → ∀ ltr c, copyLoop w 0 w.sam_read1_results = (ltr, some c) → c ≠ -1 →
      P (finish (fullVars w)
          (headerReadCalls w ++ headerWriteCalls w ++ ltr ++ [.printf "Error in reading data\n"]))) :
    P (main w) := by
  simp only [parsedCalls, parsedVars, filledBuffers,
    List.append_assoc, List.cons_append, List.nil_append] at h_parse0 h_parse1 h_parse2 h_parse3 h_bam
  simp only [parsedCalls, fullVars, parsedVars, filledBuffers,
    List.append_assoc, List.cons_append, List.nil_append] at h_input h_output h_hdr_read
  simp only [headerReadCalls, parsedCalls, headerWriteCalls, fullVars, parsedVars, filledBuffers,
    List.take, List.append_assoc, List.cons_append, List.nil_append] at h_hdr_write0 h_hdr_write1
  simp only [headerReadCalls, parsedCalls, headerWriteCalls, fullVars, parsedVars, filledBuffers,
    List.take, List.append_assoc, List.cons_append, List.nil_append] at h_hdr_write2 h_hdr_write3
  simp only [headerReadCalls, parsedCalls, headerWriteCalls, fullVars, parsedVars, filledBuffers,
    List.append_assoc, List.cons_append, List.nil_append] at h_write h_eof h_read
  unfold main
  simp only [List.append_assoc, List.cons_append, List.nil_append]
  by_cases h1 : w.argc ≠ 4
  · rw [if_pos h1]; exact h_usage h1
  rw [if_neg h1]
  have ha : ArgsOk w := not_not.mp h1
  by_cases h2 : ((malloc w (Res.file 0)).isNone || (malloc w (Res.file 1)).isNone ||
      (malloc w (Res.file 2)).isNone || (malloc w (Res.file 3)).isNone ||
      (malloc w Res.reffmt1).isNone || (malloc w Res.reffmt2).isNone) = true
  · rw [if_pos h2]
    apply h_malloc ha
    intro hb
    obtain ⟨b1, b2, b3, b4, b5, b6⟩ := hb
    simp [malloc, b1, b2, b3, b4, b5, b6] at h2
  rw [if_neg h2]
  have hb : BuffersOk w := by
    simp only [malloc, Bool.or_eq_true, not_or] at h2
    obtain ⟨⟨⟨⟨⟨b1, b2⟩, b3⟩, b4⟩, b5⟩, b6⟩ := h2
    refine ⟨?_, ?_, ?_, ?_, ?_, ?_⟩
    · revert b1; cases w.malloc_ok (.file 0) <;> simp
    · revert b2; cases w.malloc_ok (.file 1) <;> simp
    · revert b3; cases w.malloc_ok (.file 2) <;> simp
    · revert b4; cases w.malloc_ok (.file 3) <;> simp
    · revert b5; cases w.malloc_ok .reffmt1 <;> simp
    · revert b6; cases w.malloc_ok .reffmt2 <;> simp
  by_cases h3 : w.hts_parse_format_ret 0 = -1
  · rw [if_pos h3]; exact h_parse0 ha hb h3
  rw [if_neg h3]
  by_cases h4 : w.hts_parse_format_ret 1 = -1
  · rw [if_pos h4]; exact h_parse1 ha hb h3 h4
  rw [if_neg h4]
  by_cases h5 : w.hts_parse_format_ret 2 = -1
  · rw [if_pos h5]; exact h_parse2 ha hb h3 h4 h5
  rw [if_neg h5]
  by_cases h6 : w.hts_parse_format_ret 3 = -1
  · rw [if_pos h6]; exact h_parse3 ha hb h3 h4 h5 h6
  rw [if_neg h6]
  have hf : FormatsOk w := ⟨h3, h4, h5, h6⟩
  by_cases h7 : (!w.bam_init1_ok) = true
  · rw [if_pos h7]
    have h7f : w.bam_init1_ok = false := by simpa using h7
    rw [h7f]
    exact h_bam ha hb hf h7f
  rw [if_neg h7]
  have h7t : w.bam_init1_ok = true := by simpa using h7
  simp only [h7t]
  have hi : ReachesInputOpen w := ⟨ha, hb, hf, h7t⟩
  by_cases h8 : (!w.sam_open_ok) = true
  · rw [if_pos h8]
    have h8f : w.sam_open_ok = false := by simpa using h8
    rw [h8f]
    exact h_input hi h8f
  rw [if_neg h8]
  have h8t : w.sam_open_ok = true := by simpa using h8
  simp only [h8t]
  have ho : ReachesOutputOpen w := ⟨hi, h8t⟩
  by_cases h9 : (!w.sam_open_format_ok 0 || !w.sam_open_format_ok 1 || !w.sam_open_format_ok 2 ||
      !w.sam_open_format_ok 3) = true
  · rw [if_pos h9]
    apply h_output ho
    intro hk
    obtain ⟨k0, k1, k2, k3⟩ := hk
    simp [k0, k1, k2, k3] at h9
  rw [if_neg h9]
  have hk : OutputsOk w := by
    simp only [Bool.or_eq_true, not_or, Bool.not_eq_true', Bool.not_eq_false] at h9
    obtain ⟨⟨⟨k0, k1⟩, k2⟩, k3⟩ := h9
    exact ⟨k0, k1, k2, k3⟩
  have hr : ReachesHeaderRead w := ⟨ho, hk⟩
  obtain ⟨k0, k1, k2, k3⟩ := hk
  simp only [k0, k1, k2, k3]
  by_cases h10 : (!w.sam_hdr_read_ok) = true
  · rw [if_pos h10]
    have h10f : w.sam_hdr_read_ok = false := by simpa using h10
    rw [h10f]
    exact h_hdr_read hr h10f
  rw [if_neg h10]
  have h10t : w.sam_hdr_read_ok = true := by simpa using h10
  simp only [h10t]
  have hw : ReachesHeaderWrite w := ⟨hr, h10t⟩
  by_cases h11 : w.sam_hdr_write_ret 0 = -1
  · rw [if_pos h11]; exact h_hdr_write0 hw h11
  rw [if_neg h11]
  by_cases h12 : w.sam_hdr_write_ret 1 = -1
  · rw [if_pos h12]; exact h_hdr_write1 hw h11 h12
  rw [if_neg h12]
  by_cases h13 : w.sam_hdr_write_ret 2 = -1
  · rw [if_pos h13]; exact h_hdr_write2 hw h11 h12 h13
  rw [if_neg h13]
  by_cases h14 : w.sam_hdr_write_ret 3 = -1
  · rw [if_pos h14]; exact h_hdr_write3 hw h11 h12 h13 h14
  rw [if_neg h14]
  have hl : ReachesLoop w := ⟨hw, h11, h12, h13, h14⟩
  cases hcl : copyLoop w 0 w.sam_read1_results with
  | mk ltr o =>
    cases o with
    | none => exact h_write hl ltr hcl
    | some c =>
      by_cases hc : -1 = c
      · subst hc
        simp only [if_true]
        exact h_eof hl ltr hcl
      · simp only [if_neg hc]
        exact h_read hl ltr c hcl (fun h => hc h.symm)

/-- When every write succeeds the loop ends on the first negative read result, having
written each record read to the four outputs in order. -/
theorem copyLoop_ok (w : World) (l : List (Int × bam1_t)) :
    ∀ i, WritesOk w i (recordsRead l).length →
      (copyLoop w i l).2 = some (endResult l) ∧
      copySteps (copyLoop w i l).1 = (recordsRead l).flatMap fullIteration ++ [.read] ∧
      ∀ k, writesTo k (copyLoop w i l).1 = (recordsRead l).map .record := by
  induction l with
  | nil => intro i _; simp [copyLoop, endResult, recordsRead, copySteps, Event.copyStep, writesTo,
      Event.writtenTo]
  | cons p rest ih =>
    intro i h
    obtain ⟨c, b⟩ := p
    by_cases hc : c ≥ 0
    · simp only [recordsRead, if_pos hc, List.length_cons] at h
      have h0 : ∀ k : Fin 4, ¬ w.sam_write1_ret i k < 0 := fun k => not_lt.mpr (by simpa using h 0 (by omega) k)
      have hrest : WritesOk w (i + 1) (recordsRead rest).length := by
        intro j hj k
        have := h (j + 1) (by omega) k
        rwa [show i + (j + 1) = i + 1 + j by omega] at this
      obtain ⟨e1, e2, e3⟩ := ih (i + 1) hrest
      simp only [copyLoop, if_pos hc, if_neg (h0 0), if_neg (h0 1), if_neg (h0 2), if_neg (h0 3),
        endResult, recordsRead]
      refine ⟨e1, ?_, ?_⟩
      · simp [copySteps, Event.copyStep, fullIteration] at e2 ⊢
        exact e2
      · intro k
        have e3k := e3 k
        simp only [writesTo] at e3k ⊢
        revert e3k
        fin_cases k <;> intro e3k <;> simp [Event.writtenTo] <;> exact e3k
    · simp [copyLoop, hc, endResult, recordsRead, copySteps, Event.copyStep, writesTo,
        Event.writtenTo]

/-- When some write of a record read fails, the loop is left by `goto end`. -/
theorem copyLoop_none (w : World) (l : List (Int × bam1_t)) :
    ∀ i, ¬ WritesOk w i (recordsRead l).length → (copyLoop w i l).2 = none := by
  induction l with
  | nil => intro i h; exact absurd (fun j hj => by simp [recordsRead] at hj) h
  | cons p rest ih =>
    intro i h
    obtain ⟨c, b⟩ := p
    by_cases hc : c ≥ 0
    · simp only [copyLoop, if_pos hc]
      split_ifs with h0 h1 h2 h3
      · rfl
      · rfl
      · rfl
      · rfl
      · apply ih
        intro hrest
        apply h
        intro j hj k
        simp only [recordsRead, if_pos hc, List.length_cons] at hj
        cases j with
        | zero =>
          simp only [Nat.add_zero]
          fin_cases k
          · exact not_lt.mp h0
          · exact not_lt.mp h1
          · exact not_lt.mp h2
          · exact not_lt.mp h3
        | succ j =>
          have := hrest j (by omega) k
          rwa [show i + 1 + j = i + (j + 1) by omega] at this
    · exact absurd (fun j hj => by simp [recordsRead, hc] at hj) h

theorem finish_ret (v : Vars) (tr : List Event) : (finish v tr).ret = v.ret := rfl

theorem finish_trace (v : Vars) (tr : List Event) : (finish v tr).trace = tr ++ teardown v := rfl

/-- C2: `main` returns 0 exactly when `argc` is 4, the six buffers and the record buffer
were allocated, no format parse returned -1, the input and the four outputs opened, the
header was read, no header write returned -1, every record write returned a
non-negative result and the loop ended on read result -1; in every other run it
returns 1. -/
theorem C2_exit_status (w : World) :
    ((main w).ret = 0 ↔ Succeeds w) ∧ ((main w).ret = 0 ∨ (main w).ret = 1) := by
  apply main_ind w (fun r => (r.ret = 0 ↔ Succeeds w) ∧ (r.ret = 0 ∨ r.ret = 1))
  case h_write =>
    intro hl ltr hcl
    refine ⟨⟨fun h => absurd h (by simp [finish_ret, fullVars, parsedVars, filledBuffers, EXIT_FAILURE]),
      fun hs => ?_⟩, Or.inr rfl⟩
    have := (copyLoop_ok w _ 0 hs.2.1).1
    rw [hcl] at this
    simp at this
  case h_eof =>
    intro hl ltr hcl
    refine ⟨⟨fun _ => ?_, fun _ => rfl⟩, Or.inl rfl⟩
    have hw : WritesOk w 0 (recordsRead w.sam_read1_results).length := by
      by_contra hn
      have := copyLoop_none w _ 0 hn
      rw [hcl] at this
      simp at this
    have := (copyLoop_ok w _ 0 hw).1
    rw [hcl] at this
    simp only [Option.some.injEq] at this
    exact ⟨hl, hw, this.symm⟩
  case h_read =>
    intro hl ltr c hcl hc
    refine ⟨⟨fun h => absurd h (by simp [finish_ret, fullVars, parsedVars, filledBuffers, EXIT_FAILURE]),
      fun hs => ?_⟩, Or.inr rfl⟩
    have := (copyLoop_ok w _ 0 hs.2.1).1
    rw [hcl] at this
    simp only [Option.some.injEq] at this
    exact absurd (this.trans hs.2.2) hc
  all_goals
    intros
    refine ⟨⟨fun h => absurd h (by simp [finish_ret, fullVars, parsedVars, filledBuffers, EXIT_FAILURE]),
      fun hs => ?_⟩, Or.inr rfl⟩
    simp_all [Succeeds, ReachesLoop, ReachesHeaderWrite, ReachesHeaderRead, ReachesOutputOpen,
      ReachesInputOpen, ArgsOk, BuffersOk, FormatsOk, OutputsOk, HeaderWritesOk]

/-- C9: when `argc` is not 4, the run of `main` is one call, the `fprintf` of the usage
text of lines 39-44 to standard output, and the exit status is 1: nothing is allocated,
parsed, opened or released, and nothing else is printed. -/
theorem C9_usage_only (w : World) (h : w.argc ≠ 4) :
    main w =
      { trace := [Event.fprintf FILE.stdout
          "Usage: cram infile reffile outdir\nDumps the input file alignments in cram format in given directory\n1.cram has external reference\n2.cram has reference embedded\n3.cram has autogenerated reference\n4.cram has no reference data in it\n"],
        ret := 1 } := by
  unfold main
  rw [if_pos h]
  rfl

theorem C9_usage_only_witness :
    usageWorld.argc ≠ 4 ∧
    main usageWorld =
      { trace := [Event.fprintf FILE.stdout
          "Usage: cram infile reffile outdir\nDumps the input file alignments in cram format in given directory\n1.cram has external reference\n2.cram has reference embedded\n3.cram has autogenerated reference\n4.cram has no reference data in it\n"],
        ret := 1 } :=
  ⟨by decide, C9_usage_only usageWorld (by decide)⟩

theorem finish_releases (v : Vars) (tr : List Event) (h1 : ∀ e ∈ tr, e.releases = none)
    (h2 : ∀ r, acquireCount r tr = if v.holds r then 1 else 0) :
    ReleasesWhatItAcquired (finish v tr) := by
  refine ⟨tr, teardown v, rfl, h1, teardown_acquires v, fun r => ⟨?_, ?_⟩⟩
  · rw [h2 r]; split <;> simp
  · rw [h2 r, teardown_releaseCount]

theorem malloc_isSome (w : World) (r : Res) : (malloc w r).isSome = w.malloc_ok r := by
  unfold malloc
  cases w.malloc_ok r <;> rfl

theorem acquireCount_append (r : Res) (a b : List Event) :
    acquireCount r (a ++ b) = acquireCount r a + acquireCount r b := by
  simp [acquireCount, List.countP_append]

theorem copyLoop_counts (w : World) (l : List (Int × bam1_t)) (i : Nat) (ltr : List Event)
    (o : Option Int) (h : copyLoop w i l = (ltr, o)) :
    (∀ e ∈ ltr, e.releases = none) ∧ ∀ r, acquireCount r ltr = 0 := by
  have hl : ltr = (copyLoop w i l).1 := by rw [h]
  subst hl
  refine ⟨fun e he => (copyLoop_acquires w l i e he).2, fun r => ?_⟩
  simp only [acquireCount, List.countP_eq_zero]
  intro e he
  simp [(copyLoop_acquires w l i e he).1]

theorem finish_releases_neutral (v : Vars) (core extra : List Event)
    (h1 : ∀ e ∈ core, e.releases = none)
    (h2 : ∀ r, acquireCount r core = if v.holds r then 1 else 0)
    (h3 : ∀ e ∈ extra, e.acquires = none ∧ e.releases = none) :
    ReleasesWhatItAcquired (finish v (core ++ extra)) := by
  apply finish_releases
  · intro e he
    rw [List.mem_append] at he
    rcases he with he | he
    · exact h1 e he
    · exact (h3 e he).2
  · intro r
    rw [acquireCount_append, h2 r]
    have : acquireCount r extra = 0 := by
      simp only [acquireCount, List.countP_eq_zero]
      intro e he
      simp [(h3 e he).1]
    omega

theorem headerReadCalls_counts (w : World) (h : ReachesHeaderWrite w) :
    (∀ e ∈ headerReadCalls w, e.releases = none) ∧
    ∀ r, acquireCount r (headerReadCalls w) = if (fullVars w).holds r then 1 else 0 := by
  obtain ⟨⟨⟨⟨-, ⟨b1, b2, b3, b4, b5, b6⟩, -, -⟩, -⟩, ⟨o1, o2, o3, o4⟩⟩, -⟩ := h
  constructor
  · simp [Event.releases, mallocCalls, parseCall, parsedCalls, openCalls, headerReadCalls]
  · intro r
    cases r with
    | outfile k =>
      fin_cases k <;> simp [acquireCount, Vars.holds, Event.acquires, mallocCalls, parseCall,
        parsedCalls, openCalls, headerReadCalls, List.countP_cons, fullVars,
        parsedVars, filledBuffers, b1, b2, b3, b4, b5, b6, o1, o2, o3, o4]
    | file k =>
      fin_cases k <;> simp [acquireCount, Vars.holds, Event.acquires, mallocCalls, parseCall,
        parsedCalls, openCalls, headerReadCalls, List.countP_cons, fullVars,
        parsedVars, filledBuffers, b1, b2, b3, b4, b5, b6, o1, o2, o3, o4]
    | fmt_specific k =>
      fin_cases k <;> simp [acquireCount, Vars.holds, Event.acquires, mallocCalls, parseCall,
        parsedCalls, openCalls, headerReadCalls, List.countP_cons, fullVars,
        parsedVars, filledBuffers, b1, b2, b3, b4, b5, b6, o1, o2, o3, o4]
    | _ =>
      simp [acquireCount, Vars.holds, Event.acquires, mallocCalls, parseCall,
        parsedCalls, openCalls, headerReadCalls, List.countP_cons, fullVars,
        parsedVars, filledBuffers, b1, b2, b3, b4, b5, b6, o1, o2, o3, o4]

theorem neutral_append (a b : List Event)
    (ha : ∀ e ∈ a, e.acquires = none ∧ e.releases = none)
    (hb : ∀ e ∈ b, e.acquires = none ∧ e.releases = none) :
    ∀ e ∈ a ++ b, e.acquires = none ∧ e.releases = none := by
  intro e he
  rw [List.mem_append] at he
  rcases he with he | he
  · exact ha e he
  · exact hb e he

theorem headerWriteCalls_neutral (w : World) (n : Nat) :
    ∀ e ∈ (headerWriteCalls w).take n, e.acquires = none ∧ e.releases = none := by
  intro e he
  have he' := List.mem_of_mem_take he
  simp only [headerWriteCalls, List.mem_cons, List.mem_singleton, List.not_mem_nil, or_false] at he'
  rcases he' with rfl | rfl | rfl | rfl <;> simp [Event.acquires, Event.releases]

theorem printf_neutral (msg : String) :
    ∀ e ∈ [Event.printf msg], e.acquires = none ∧ e.releases = none := by
  simp [Event.acquires, Event.releases]

set_option maxHeartbeats 4000000 in
/-- C3: in every run, all releases happen in a final segment of the trace (the cleanup at
label `end`), after every acquisition; each resource is acquired at most once, and the
cleanup releases it once when it was acquired and not at all when it was not. -/
theorem C3_teardown_releases_exactly_acquired (w : World) : ReleasesWhatItAcquired (main w) := by
  apply main_ind w ReleasesWhatItAcquired
  case h_write =>
    intro hl ltr hcl
    obtain ⟨c1, c2⟩ := headerReadCalls_counts w hl.1
    rw [List.append_assoc]
    apply finish_releases_neutral _ _ _ c1 c2
    apply neutral_append
    · simpa using headerWriteCalls_neutral w 4
    · intro e he
      have hl : ltr = (copyLoop w 0 w.sam_read1_results).1 := by rw [hcl]
      subst hl
      exact copyLoop_acquires w _ 0 e he
  case h_eof =>
    intro hl ltr hcl
    obtain ⟨c1, c2⟩ := headerReadCalls_counts w hl.1
    rw [List.append_assoc]
    apply finish_releases_neutral _ _ _ c1 c2
    apply neutral_append
    · simpa using headerWriteCalls_neutral w 4
    · intro e he
      have hl : ltr = (copyLoop w 0 w.sam_read1_results).1 := by rw [hcl]
      subst hl
      exact copyLoop_acquires w _ 0 e he
  case h_read =>
    intro hl ltr c hcl _
    obtain ⟨c1, c2⟩ := headerReadCalls_counts w hl.1
    rw [List.append_assoc, List.append_assoc]
    apply finish_releases_neutral _ _ _ c1 c2
    apply neutral_append
    · simpa using headerWriteCalls_neutral w 4
    apply neutral_append
    · intro e he
      have hl : ltr = (copyLoop w 0 w.sam_read1_results).1 := by rw [hcl]
      subst hl
      exact copyLoop_acquires w _ 0 e he
    · exact printf_neutral _
  case h_hdr_write0 =>
    intro hl _
    obtain ⟨c1, c2⟩ := headerReadCalls_counts w hl
    rw [List.append_assoc]
    exact finish_releases_neutral _ _ _ c1 c2
      (neutral_append _ _ (headerWriteCalls_neutral w _) (printf_neutral _))
  case h_hdr_write1 =>
    intro hl _ _
    obtain ⟨c1, c2⟩ := headerReadCalls_counts w hl
    rw [List.append_assoc]
    exact finish_releases_neutral _ _ _ c1 c2
      (neutral_append _ _ (headerWriteCalls_neutral w _) (printf_neutral _))
  case h_hdr_write2 =>
    intro hl _ _ _
    obtain ⟨c1, c2⟩ := headerReadCalls_counts w hl
    rw [List.append_assoc]
    exact finish_releases_neutral _ _ _ c1 c2
      (neutral_append _ _ (headerWriteCalls_neutral w _) (printf_neutral _))
  case h_hdr_write3 =>
    intro hl _ _ _ _
    obtain ⟨c1, c2⟩ := headerReadCalls_counts w hl
    rw [List.append_assoc]
    apply finish_releases_neutral _ _ _ c1 c2
    apply neutral_append _ _ _ (printf_neutral _)
    simpa using headerWriteCalls_neutral w 4
  case h_usage =>
    intro _
    apply finish_releases
    · simp [Event.releases, print_usage]
    · intro r
      cases r with
      | outfile k =>
        fin_cases k <;> simp [acquireCount, Vars.holds, Event.acquires, print_usage]
      | file k =>
        fin_cases k <;> simp [acquireCount, Vars.holds, Event.acquires, print_usage]
      | fmt_specific k =>
        fin_cases k <;> simp [acquireCount, Vars.holds, Event.acquires, print_usage]
      | _ =>
        simp [acquireCount, Vars.holds, Event.acquires, print_usage]
  case h_malloc =>
    intro _ _
    apply finish_releases
    · simp [Event.releases, mallocCalls, parseCall, parsedCalls, openCalls]
    · intro r
      cases r with
      | outfile k =>
        fin_cases k <;> simp [acquireCount, Vars.holds, Event.acquires, mallocCalls, parseCall,
          parsedCalls, openCalls, List.countP_cons, fullVars, malloc_isSome,
          parsedVars, filledBuffers]
      | file k =>
        fin_cases k <;> simp [acquireCount, Vars.holds, Event.acquires, mallocCalls, parseCall,
          parsedCalls, openCalls, List.countP_cons, fullVars, malloc_isSome,
          parsedVars, filledBuffers]
      | fmt_specific k =>
        fin_cases k <;> simp [acquireCount, Vars.holds, Event.acquires, mallocCalls, parseCall,
          parsedCalls, openCalls, List.countP_cons, fullVars, malloc_isSome,
          parsedVars, filledBuffers]
      | _ =>
        simp [acquireCount, Vars.holds, Event.acquires, mallocCalls, parseCall,
          parsedCalls, openCalls, List.countP_cons, fullVars, malloc_isSome,
          parsedVars, filledBuffers]
  case h_parse0 =>
    intro _ hb _
    obtain ⟨b1, b2, b3, b4, b5, b6⟩ := hb
    apply finish_releases
    · simp [Event.releases, mallocCalls, parseCall, parsedCalls, openCalls]
    · intro r
      cases r with
      | outfile k =>
        fin_cases k <;> simp [acquireCount, Vars.holds, Event.acquires, mallocCalls, parseCall,
          parsedCalls, openCalls, List.countP_cons, fullVars, malloc_isSome,
          parsedVars, filledBuffers, b1, b2, b3, b4, b5, b6]
      | file k =>
        fin_cases k <;> simp [acquireCount, Vars.holds, Event.acquires, mallocCalls, parseCall,
          parsedCalls, openCalls, List.countP_cons, fullVars, malloc_isSome,
          parsedVars, filledBuffers, b1, b2, b3, b4, b5, b6]
      | fmt_specific k =>
        fin_cases k <;> simp [acquireCount, Vars.holds, Event.acquires, mallocCalls, parseCall,
          parsedCalls, openCalls, List.countP_cons, fullVars, malloc_isSome,
          parsedVars, filledBuffers, b1, b2, b3, b4, b5, b6]
      | _ =>
        simp [acquireCount, Vars.holds, Event.acquires, mallocCalls, parseCall,
          parsedCalls, openCalls, List.countP_cons, fullVars, malloc_isSome,
          parsedVars, filledBuffers, b1, b2, b3, b4, b5, b6]
  case h_parse1 =>
    intro _ hb _ _
    obtain ⟨b1, b2, b3, b4, b5, b6⟩ := hb
    apply finish_releases
    · simp [Event.releases, mallocCalls, parseCall, parsedCalls, openCalls]
    · intro r
      cases r with
      | outfile k =>
        fin_cases k <;> simp [acquireCount, Vars.holds, Event.acquires, mallocCalls, parseCall,
          parsedCalls, openCalls, List.countP_cons, fullVars, malloc_isSome,
          parsedVars, filledBuffers, b1, b2, b3, b4, b5, b6]
      | file k =>
        fin_cases k <;> simp [acquireCount, Vars.holds, Event.acquires, mallocCalls, parseCall,
          parsedCalls, openCalls, List.countP_cons, fullVars, malloc_isSome,
          parsedVars, filledBuffers, b1, b2, b3, b4, b5, b6]
      | fmt_specific k =>
        fin_cases k <;> simp [acquireCount, Vars.holds, Event.acquires, mallocCalls, parseCall,
          parsedCalls, openCalls, List.countP_cons, fullVars, malloc_isSome,
          parsedVars, filledBuffers, b1, b2, b3, b4, b5, b6]
      | _ =>
        simp [acquireCount, Vars.holds, Event.acquires, mallocCalls, parseCall,
          parsedCalls, openCalls, List.countP_cons, fullVars, malloc_isSome,
          parsedVars, filledBuffers, b1, b2, b3, b4, b5, b6]
  case h_parse2 =>
    intro _ hb _ _ _
    obtain ⟨b1, b2, b3, b4, b5, b6⟩ := hb
    apply finish_releases
    · simp [Event.releases, mallocCalls, parseCall, parsedCalls, openCalls]
    · intro r
      cases r with
      | outfile k =>
        fin_cases k <;> simp [acquireCount, Vars.holds, Event.acquires, mallocCalls, parseCall,
          parsedCalls, openCalls, List.countP_cons, fullVars, malloc_isSome,
          parsedVars, filledBuffers, b1, b2, b3, b4, b5, b6]
      | file k =>
        fin_cases k <;> simp [acquireCount, Vars.holds, Event.acquires, mallocCalls, parseCall,
          parsedCalls, openCalls, List.countP_cons, fullVars, malloc_isSome,
          parsedVars, filledBuffers, b1, b2, b3, b4, b5, b6]
      | fmt_specific k =>
        fin_cases k <;> simp [acquireCount, Vars.holds, Event.acquires, mallocCalls, parseCall,
          parsedCalls, openCalls, List.countP_cons, fullVars, malloc_isSome,
          parsedVars, filledBuffers, b1, b2, b3, b4, b5, b6]
      | _ =>
        simp [acquireCount, Vars.holds, Event.acquires, mallocCalls, parseCall,
          parsedCalls, openCalls, List.countP_cons, fullVars, malloc_isSome,
          parsedVars, filledBuffers, b1, b2, b3, b4, b5, b6]
  case h_parse3 =>
    intro _ hb _ _ _ _
    obtain ⟨b1, b2, b3, b4, b5, b6⟩ := hb
    apply finish_releases
    · simp [Event.releases, mallocCalls, parseCall, parsedCalls, openCalls]
    · intro r
      cases r with
      | outfile k =>
        fin_cases k <;> simp [acquireCount, Vars.holds, Event.acquires, mallocCalls, parseCall,
          parsedCalls, openCalls, List.countP_cons, fullVars, malloc_isSome,
          parsedVars, filledBuffers, b1, b2, b3, b4, b5, b6]
      | file k =>
        fin_cases k <;> simp [acquireCount, Vars.holds, Event.acquires, mallocCalls, parseCall,
          parsedCalls, openCalls, List.countP_cons, fullVars, malloc_isSome,
          parsedVars, filledBuffers, b1, b2, b3, b4, b5, b6]
      | fmt_specific k =>
        fin_cases k <;> simp [acquireCount, Vars.holds, Event.acquires, mallocCalls, parseCall,
          parsedCalls, openCalls, List.countP_cons, fullVars, malloc_isSome,
          parsedVars, filledBuffers, b1, b2, b3, b4, b5, b6]
      | _ =>
        simp [acquireCount, Vars.holds, Event.acquires, mallocCalls, parseCall,
          parsedCalls, openCalls, List.countP_cons, fullVars, malloc_isSome,
          parsedVars, filledBuffers, b1, b2, b3, b4, b5, b6]
  case h_bam =>
    intro _ hb _ _
    obtain ⟨b1, b2, b3, b4, b5, b6⟩ := hb
    apply finish_releases
    · simp [Event.releases, mallocCalls, parseCall, parsedCalls, openCalls]
    · intro r
      cases r with
      | outfile k =>
        fin_cases k <;> simp [acquireCount, Vars.holds, Event.acquires, mallocCalls, parseCall,
          parsedCalls, openCalls, List.countP_cons, fullVars, malloc_isSome,
          parsedVars, filledBuffers, b1, b2, b3, b4, b5, b6]
      | file k =>
        fin_cases k <;> simp [acquireCount, Vars.holds, Event.acquires, mallocCalls, parseCall,
          parsedCalls, openCalls, List.countP_cons, fullVars, malloc_isSome,
          parsedVars, filledBuffers, b1, b2, b3, b4, b5, b6]
      | fmt_specific k =>
        fin_cases k <;> simp [acquireCount, Vars.holds, Event.acquires, mallocCalls, parseCall,
          parsedCalls, openCalls, List.countP_cons, fullVars, malloc_isSome,
          parsedVars, filledBuffers, b1, b2, b3, b4, b5, b6]
      | _ =>
        simp [acquireCount, Vars.holds, Event.acquires, mallocCalls, parseCall,
          parsedCalls, openCalls, List.countP_cons, fullVars, malloc_isSome,
          parsedVars, filledBuffers, b1, b2, b3, b4, b5, b6]
  case h_input =>
    intro hr _
    obtain ⟨b1, b2, b3, b4, b5, b6⟩ := hr.2.1
    apply finish_releases
    · simp [Event.releases, mallocCalls, parseCall, parsedCalls, openCalls]
    · intro r
      cases r with
      | outfile k =>
        fin_cases k <;> simp [acquireCount, Vars.holds, Event.acquires, mallocCalls, parseCall,
          parsedCalls, openCalls, List.countP_cons, fullVars, malloc_isSome,
          parsedVars, filledBuffers, b1, b2, b3, b4, b5, b6]
      | file k =>
        fin_cases k <;> simp [acquireCount, Vars.holds, Event.acquires, mallocCalls, parseCall,
          parsedCalls, openCalls, List.countP_cons, fullVars, malloc_isSome,
          parsedVars, filledBuffers, b1, b2, b3, b4, b5, b6]
      | fmt_specific k =>
        fin_cases k <;> simp [acquireCount, Vars.holds, Event.acquires, mallocCalls, parseCall,
          parsedCalls, openCalls, List.countP_cons, fullVars, malloc_isSome,
          parsedVars, filledBuffers, b1, b2, b3, b4, b5, b6]
      | _ =>
        simp [acquireCount, Vars.holds, Event.acquires, mallocCalls, parseCall,
          parsedCalls, openCalls, List.countP_cons, fullVars, malloc_isSome,
          parsedVars, filledBuffers, b1, b2, b3, b4, b5, b6]
  case h_output =>
    intro hr _
    obtain ⟨b1, b2, b3, b4, b5, b6⟩ := hr.1.2.1
    apply finish_releases
    · simp [Event.releases, mallocCalls, parseCall, parsedCalls, openCalls]
    · intro r
      cases r with
      | outfile k =>
        fin_cases k <;> simp [acquireCount, Vars.holds, Event.acquires, mallocCalls, parseCall,
          parsedCalls, openCalls, List.countP_cons, fullVars, malloc_isSome,
          parsedVars, filledBuffers, b1, b2, b3, b4, b5, b6]
      | file k =>
        fin_cases k <;> simp [acquireCount, Vars.holds, Event.acquires, mallocCalls, parseCall,
          parsedCalls, openCalls, List.countP_cons, fullVars, malloc_isSome,
          parsedVars, filledBuffers, b1, b2, b3, b4, b5, b6]
      | fmt_specific k =>
        fin_cases k <;> simp [acquireCount, Vars.holds, Event.acquires, mallocCalls, parseCall,
          parsedCalls, openCalls, List.countP_cons, fullVars, malloc_isSome,
          parsedVars, filledBuffers, b1, b2, b3, b4, b5, b6]
      | _ =>
        simp [acquireCount, Vars.holds, Event.acquires, mallocCalls, parseCall,
          parsedCalls, openCalls, List.countP_cons, fullVars, malloc_isSome,
          parsedVars, filledBuffers, b1, b2, b3, b4, b5, b6]
  case h_hdr_read =>
    intro hr _
    obtain ⟨b1, b2, b3, b4, b5, b6⟩ := hr.1.1.2.1
    obtain ⟨o1, o2, o3, o4⟩ := hr.2
    apply finish_releases
    · simp [Event.releases, mallocCalls, parseCall, parsedCalls, openCalls]
    · intro r
      cases r with
      | outfile k =>
        fin_cases k <;> simp [acquireCount, Vars.holds, Event.acquires, mallocCalls, parseCall,
          parsedCalls, openCalls, List.countP_cons, fullVars, malloc_isSome,
          parsedVars, filledBuffers, b1, b2, b3, b4, b5, b6, o1, o2, o3, o4]
      | file k =>
        fin_cases k <;> simp [acquireCount, Vars.holds, Event.acquires, mallocCalls, parseCall,
          parsedCalls, openCalls, List.countP_cons, fullVars, malloc_isSome,
          parsedVars, filledBuffers, b1, b2, b3, b4, b5, b6, o1, o2, o3, o4]
      | fmt_specific k =>
        fin_cases k <;> simp [acquireCount, Vars.holds, Event.acquires, mallocCalls, parseCall,
          parsedCalls, openCalls, List.countP_cons, fullVars, malloc_isSome,
          parsedVars, filledBuffers, b1, b2, b3, b4, b5, b6, o1, o2, o3, o4]
      | _ =>
        simp [acquireCount, Vars.holds, Event.acquires, mallocCalls, parseCall,
          parsedCalls, openCalls, List.countP_cons, fullVars, malloc_isSome,
          parsedVars, filledBuffers, b1, b2, b3, b4, b5, b6, o1, o2, o3, o4]

theorem teardown_forall (P : Event → Prop) (h : ∀ e : Event, e.releases ≠ none → P e) (v : Vars) :
    ∀ e ∈ teardown v, P e := by
  unfold teardown
  simp only [List.forall_mem_append]
  repeat' apply And.intro
  all_goals (apply IF_OL_forall; apply h; simp [Event.releases])

theorem writesTo_append (k : Fin 4) (a b : List Event) :
    writesTo k (a ++ b) = writesTo k a ++ writesTo k b := by
  simp [writesTo]

theorem writesTo_teardown (k : Fin 4) (v : Vars) : writesTo k (teardown v) = [] := by
  simp only [writesTo, List.filterMap_eq_nil_iff]
  apply teardown_forall
  intro e he
  cases e <;> simp [Event.releases, Event.writtenTo] at he ⊢

theorem writesTo_headerReadCalls (k : Fin 4) (w : World) : writesTo k (headerReadCalls w) = [] := by
  simp [writesTo, headerReadCalls, parsedCalls, mallocCalls, parseCall, openCalls, Event.writtenTo]

theorem writesTo_headerWriteCalls (k : Fin 4) (w : World) :
    writesTo k (headerWriteCalls w) = [.header] := by
  fin_cases k <;> simp [writesTo, headerWriteCalls, Event.writtenTo]

theorem copyLoop_some_writesOk (w : World) (l : List (Int × bam1_t)) (i : Nat) (ltr : List Event)
    (c : Int) (h : copyLoop w i l = (ltr, some c)) : WritesOk w i (recordsRead l).length := by
  by_contra hn
  have := copyLoop_none w l i hn
  rw [h] at this
  simp at this

/-- C1: in a run that returns 0, each of the four outputs receives one header write and
then one write of each record that `sam_read1` yielded before the end of the stream, in
the order they were read. -/
theorem C1_outputs_receive_all_records (w : World) (h : (main w).ret = 0) (k : Fin 4) :
    writesTo k (main w).trace = .header :: (recordsRead w.sam_read1_results).map .record := by
  revert h k
  apply main_ind w (fun r => r.ret = 0 → ∀ k, writesTo k r.trace =
    .header :: (recordsRead w.sam_read1_results).map .record)
  case h_eof =>
    intro hl ltr hcl _ k
    have hw := copyLoop_some_writesOk w _ _ _ _ hcl
    have h3 := (copyLoop_ok w _ 0 hw).2.2 k
    rw [hcl] at h3
    simp only [finish_trace, writesTo_append, writesTo_teardown, writesTo_headerReadCalls,
      writesTo_headerWriteCalls, h3]
    simp
  all_goals
    intros
    rename_i hret _
    exact absurd hret (by simp [finish_ret, fullVars, parsedVars, filledBuffers, EXIT_FAILURE])

theorem C1_outputs_receive_all_records_witness :
    (main (okWorld [7, 8, 9])).ret = 0 ∧
    writesTo 0 (main (okWorld [7, 8, 9])).trace = [.header, .record 7, .record 8, .record 9] ∧
    writesTo 1 (main (okWorld [7, 8, 9])).trace = [.header, .record 7, .record 8, .record 9] ∧
    writesTo 2 (main (okWorld [7, 8, 9])).trace = [.header, .record 7, .record 8, .record 9] ∧
    writesTo 3 (main (okWorld [7, 8, 9])).trace = [.header, .record 7, .record 8, .record 9] :=
  ⟨by decide,
   C1_outputs_receive_all_records (okWorld [7, 8, 9]) (by decide) 0,
   C1_outputs_receive_all_records (okWorld [7, 8, 9]) (by decide) 1,
   C1_outputs_receive_all_records (okWorld [7, 8, 9]) (by decide) 2,
   C1_outputs_receive_all_records (okWorld [7, 8, 9]) (by decide) 3⟩

theorem teardown_fullVars (w : World) (ret : Int) :
    teardown { fullVars w with ret := ret } =
      headerAndStreamReleases ++ formatSpecReleases w ++ [.bam_destroy1] := by
  simp [teardown, fullVars, parsedVars, filledBuffers, headerAndStreamReleases, formatSpecReleases,
    IF_OL]

theorem formatSpecReleases_not_close (w : World) :
    ∀ e ∈ formatSpecReleases w ++ [.bam_destroy1], e.isClose = false ∧ e ≠ .sam_hdr_destroy := by
  simp only [formatSpecReleases, List.forall_mem_append]
  repeat' apply And.intro
  all_goals first | (apply IF_OL_forall; simp [Event.isClose]) | simp [Event.isClose]

/-- A run in which the header was read ends with the cleanup of all the variables. -/
theorem main_after_header (w : World) (h : ReachesHeaderWrite w) :
    ∃ tr ret, main w = finish { fullVars w with ret := ret } (headerReadCalls w ++ tr) ∧
      ∀ e ∈ tr, e.acquires = none ∧ e.releases = none := by
  revert h
  apply main_ind w (fun r => ReachesHeaderWrite w → ∃ tr ret,
    r = finish { fullVars w with ret := ret } (headerReadCalls w ++ tr) ∧
      ∀ e ∈ tr, e.acquires = none ∧ e.releases = none)
  case h_write =>
    intro hl ltr hcl _
    refine ⟨headerWriteCalls w ++ ltr, EXIT_FAILURE, by simp [fullVars, parsedVars, filledBuffers], ?_⟩
    apply neutral_append
    · simpa using headerWriteCalls_neutral w 4
    · intro e he
      have hl : ltr = (copyLoop w 0 w.sam_read1_results).1 := by rw [hcl]
      subst hl
      exact copyLoop_acquires w _ 0 e he
  case h_eof =>
    intro hl ltr hcl _
    refine ⟨headerWriteCalls w ++ ltr, EXIT_SUCCESS, by simp [fullVars, parsedVars, filledBuffers], ?_⟩
    apply neutral_append
    · simpa using headerWriteCalls_neutral w 4
    · intro e he
      have hl : ltr = (copyLoop w 0 w.sam_read1_results).1 := by rw [hcl]
      subst hl
      exact copyLoop_acquires w _ 0 e he
  case h_read =>
    intro hl ltr c hcl _ _
    refine ⟨headerWriteCalls w ++ ltr ++ [.printf "Error in reading data\n"], EXIT_FAILURE,
      by simp [fullVars, parsedVars, filledBuffers], ?_⟩
    apply neutral_append _ _ _ (printf_neutral _)
    apply neutral_append
    · simpa using headerWriteCalls_neutral w 4
    · intro e he
      have hl : ltr = (copyLoop w 0 w.sam_read1_results).1 := by rw [hcl]
      subst hl
      exact copyLoop_acquires w _ 0 e he
  case h_hdr_write0 =>
    intro _ _ _
    exact ⟨(headerWriteCalls w).take 1 ++ [.printf "Failed to write header\n"], EXIT_FAILURE,
      by simp [fullVars, parsedVars, filledBuffers],
      neutral_append _ _ (headerWriteCalls_neutral w _) (printf_neutral _)⟩
  case h_hdr_write1 =>
    intro _ _ _ _
    exact ⟨(headerWriteCalls w).take 2 ++ [.printf "Failed to write header\n"], EXIT_FAILURE,
      by simp [fullVars, parsedVars, filledBuffers],
      neutral_append _ _ (headerWriteCalls_neutral w _) (printf_neutral _)⟩
  case h_hdr_write2 =>
    intro _ _ _ _ _
    exact ⟨(headerWriteCalls w).take 3 ++ [.printf "Failed to write header\n"], EXIT_FAILURE,
      by simp [fullVars, parsedVars, filledBuffers],
      neutral_append _ _ (headerWriteCalls_neutral w _) (printf_neutral _)⟩
  case h_hdr_write3 =>
    intro _ _ _ _ _ _
    exact ⟨(headerWriteCalls w).take 4 ++ [.printf "Failed to write header\n"], EXIT_FAILURE,
      by simp [fullVars, parsedVars, filledBuffers, headerWriteCalls],
      neutral_append _ _ (headerWriteCalls_neutral w _) (printf_neutral _)⟩
  all_goals
    intros
    simp_all [ReachesHeaderWrite, ReachesHeaderRead, ReachesOutputOpen,
      ReachesInputOpen, ArgsOk, BuffersOk, FormatsOk, OutputsOk]

/-- C4 as stated fails: in the run on an empty input in which every call succeeds, the
header is read and the input stream is closed after the header is released. -/
theorem C4_counterexample :
    Event.sam_hdr_read true ∈ (main (okWorld [])).trace ∧
      ¬ HeaderReleasedAfterCloses (main (okWorld [])).trace := by
  refine ⟨by decide, fun h => ?_⟩
  have := h ((main (okWorld [])).trace.take 22)
    ((main (okWorld [])).trace.drop 23) (by decide) (.sam_close .infile) (by decide)
  exact absurd this (by decide)

/-- C4 (amended): in every run in which the header was read, the release of the header is
the first call of the cleanup and the first release of the run; the closes of the input
stream and of the four output streams follow it immediately, in this order, and no
stream is closed and no header released after them. -/
theorem C4_header_released_before_closes (w : World) (h : ReachesHeaderWrite w) :
    ∃ pre post, (main w).trace = pre ++ headerAndStreamReleases ++ post ∧
      (∀ e ∈ pre, e.releases = none) ∧
      (∀ e ∈ post, e.isClose = false ∧ e ≠ .sam_hdr_destroy) := by
  obtain ⟨tr, ret, hm, hn⟩ := main_after_header w h
  refine ⟨headerReadCalls w ++ tr, formatSpecReleases w ++ [.bam_destroy1], ?_, ?_,
    formatSpecReleases_not_close w⟩
  · rw [hm, finish_trace, teardown_fullVars]
    simp
  · intro e he
    rw [List.mem_append] at he
    rcases he with he | he
    · exact (headerReadCalls_counts w h).1 e he
    · exact (hn e he).2

theorem C4_header_released_before_closes_witness :
    ReachesHeaderWrite (okWorld [7]) ∧ ∃ pre post, (main (okWorld [7])).trace = pre ++ headerAndStreamReleases ++ post ∧
      (∀ e ∈ pre, e.releases = none) ∧
      (∀ e ∈ post, e.isClose = false ∧ e ≠ .sam_hdr_destroy) :=
  ⟨by decide, C4_header_released_before_closes (okWorld [7]) (by decide)⟩

/-- C8 as stated fails: in a run in which `sam_open` returns NULL the cleanup also
releases the record buffer, which is not part of a format specification. -/
theorem C8_counterexample :
    Event.sam_open inputFailWorld.inname false ∈ (main inputFailWorld).trace ∧
    ¬ (∀ e ∈ (main inputFailWorld).trace, ∀ r, e.releases = some r → r.isFormatSpec = true) := by
  refine ⟨by decide, fun h => ?_⟩
  exact absurd (h .bam_destroy1 (by decide) .bamdata rfl) (by decide)

/-- C8 (amended): in every run in which `sam_open` returns NULL, the calls are the six
allocations, the four format parses, `bam_init1`, the failed `sam_open` and the message
naming the input; then the cleanup releases the buffers and option lists of the formats
and the record buffer, and nothing else.  No output is opened, no stream is closed, no
header is released, and the exit status is 1. -/
theorem C8_input_open_failure (w : World) (h : ReachesInputOpen w) (hf : w.sam_open_ok = false) :
    main w =
      { trace := parsedCalls w ++
          [.bam_init1 true, .sam_open w.inname false,
           .printf ("Could not open " ++ String.mk w.inname ++ "\n")] ++
          formatSpecReleases w ++ [.bam_destroy1],
        ret := 1 } := by
  revert h hf
  apply main_ind w (fun r => ReachesInputOpen w → w.sam_open_ok = false → r =
      { trace := parsedCalls w ++
          [.bam_init1 true, .sam_open w.inname false,
           .printf ("Could not open " ++ String.mk w.inname ++ "\n")] ++
          formatSpecReleases w ++ [.bam_destroy1],
        ret := 1 })
  case h_input =>
    intro _ _ _ _
    simp [finish, teardown, parsedVars, filledBuffers, formatSpecReleases, IF_OL, EXIT_FAILURE]
  all_goals
    intros
    simp_all [ReachesLoop, ReachesHeaderWrite, ReachesHeaderRead, ReachesOutputOpen,
      ReachesInputOpen, ArgsOk, BuffersOk, FormatsOk, OutputsOk]

theorem C8_input_open_failure_witness :
    ReachesInputOpen inputFailWorld ∧ inputFailWorld.sam_open_ok = false ∧
    main inputFailWorld =
      { trace := parsedCalls inputFailWorld ++
          [.bam_init1 true, .sam_open inputFailWorld.inname false,
           .printf ("Could not open " ++ String.mk inputFailWorld.inname ++ "\n")] ++
          formatSpecReleases inputFailWorld ++ [.bam_destroy1],
        ret := 1 } :=
  ⟨by decide, by decide, C8_input_open_failure inputFailWorld (by decide) (by decide)⟩

/-- C5 as stated fails: when the open of output 2 fails and the three others succeed,
output 3 is opened as well, and the cleanup closes outputs 0, 1 and 3. -/
theorem C5_counterexample :
    (ReachesOutputOpen outputFailWorld ∧ outputFailWorld.sam_open_format_ok 0 = true ∧
      outputFailWorld.sam_open_format_ok 1 = true ∧ outputFailWorld.sam_open_format_ok 2 = false) ∧
    openedOutputs (main outputFailWorld).trace = [0, 1, 3] ∧
    closedOutputs (main outputFailWorld).trace = [0, 1, 3] ∧
    closedOutputs (main outputFailWorld).trace ≠ [0, 1] := by
  decide

/-- The run in which some output cannot be opened. -/
theorem main_output_failure (w : World) (h : ReachesOutputOpen w) (hf : ¬ OutputsOk w) :
    main w = finish { parsedVars w with
                  bamdata := true, infile := true,
                  outfile1 := w.sam_open_format_ok 0, outfile2 := w.sam_open_format_ok 1,
                  outfile3 := w.sam_open_format_ok 2, outfile4 := w.sam_open_format_ok 3 }
          (parsedCalls w ++ [.bam_init1 true, .sam_open w.inname true] ++ openCalls w ++
            [.printf "Could not open output file\n"]) := by
  revert h hf
  apply main_ind w (fun r => ReachesOutputOpen w → ¬ OutputsOk w → r = _)
  case h_output =>
    intro _ _ _ _
    rfl
  all_goals
    intros
    simp_all [ReachesLoop, ReachesHeaderWrite, ReachesHeaderRead, ReachesOutputOpen,
      ReachesInputOpen, ArgsOk, BuffersOk, FormatsOk]

/-- C5 (amended): in every run in which the formats parse, the input opens, outputs 0
and 1 open and the open of output 2 fails, the run returns 1; the open of output 3 is
still attempted, and the output streams the cleanup closes are exactly the opened ones:
outputs 0 and 1, and output 3 when its open succeeded; the header is not read, nothing
(header or record) is written to any output, and no record is read.  The calls of
`sam_open_format` of the run are the four of lines 110-111. -/
theorem C5_output_open_failure (w : World) (h : ReachesOutputOpen w)
    (h0 : w.sam_open_format_ok 0 = true) (h1 : w.sam_open_format_ok 1 = true)
    (h2 : w.sam_open_format_ok 2 = false) :
    (main w).ret = 1 ∧
    openedOutputs (main w).trace = [0, 1] ++ (if w.sam_open_format_ok 3 then [3] else []) ∧
    closedOutputs (main w).trace = [0, 1] ++ (if w.sam_open_format_ok 3 then [3] else []) ∧
    (∀ e ∈ (main w).trace, e.isHeaderRead = false) ∧
    (∀ k, writesTo k (main w).trace = []) ∧
    copySteps (main w).trace = [] ∧
    (main w).trace.filterMap Event.openedPath = openArguments w := by
  have hf : ¬ OutputsOk w := fun ho => by simp [ho.2.2.1] at h2
  rw [main_output_failure w h hf]
  obtain ⟨⟨-, ⟨b1, b2, b3, b4, b5, b6⟩, -, -⟩, -⟩ := h
  refine ⟨rfl, ?_, ?_, ?_, ?_, ?_, ?_⟩
  · cases h3 : w.sam_open_format_ok 3 <;>
      simp [finish, teardown, IF_OL, parsedVars, filledBuffers, parsedCalls, mallocCalls, parseCall,
        openCalls, openedOutputs, Event.openedOutput, h0, h1, h2, h3]
  · cases h3 : w.sam_open_format_ok 3 <;>
      simp [finish, teardown, IF_OL, parsedVars, filledBuffers, parsedCalls, mallocCalls, parseCall,
        openCalls, closedOutputs, Event.closedOutput, h0, h1, h2, h3]
  · intro e he
    rw [finish_trace, List.mem_append] at he
    rcases he with he | he
    · revert e
      simp [parsedCalls, mallocCalls, parseCall, openCalls, Event.isHeaderRead]
    · revert e
      apply teardown_forall
      intro e he
      cases e <;> simp [Event.releases, Event.isHeaderRead] at he ⊢
  · intro k
    rw [finish_trace, writesTo_append, writesTo_teardown]
    simp [writesTo, parsedCalls, mallocCalls, parseCall, openCalls, Event.writtenTo]
  · simp only [copySteps, List.filterMap_eq_nil_iff]
    intro e he
    rw [finish_trace, List.mem_append] at he
    rcases he with he | he
    · revert e
      simp [parsedCalls, mallocCalls, parseCall, openCalls, Event.copyStep]
    · revert e
      apply teardown_forall
      intro e he
      cases e <;> simp [Event.releases, Event.copyStep] at he ⊢
  · have ht : (teardown { parsedVars w with
        bamdata := true, infile := true,
        outfile1 := w.sam_open_format_ok 0, outfile2 := w.sam_open_format_ok 1,
        outfile3 := w.sam_open_format_ok 2,
        outfile4 := w.sam_open_format_ok 3 }).filterMap Event.openedPath = [] := by
      simp only [List.filterMap_eq_nil_iff]
      apply teardown_forall
      intro e he
      cases e <;> simp [Event.releases, Event.openedPath] at he ⊢
    rw [finish_trace, List.filterMap_append, ht]
    simp [parsedCalls, mallocCalls, parseCall, openCalls, Event.openedPath, openArguments]

theorem C5_output_open_failure_witness :
    (ReachesOutputOpen outputFailWorld ∧ outputFailWorld.sam_open_format_ok 0 = true ∧
      outputFailWorld.sam_open_format_ok 1 = true ∧ outputFailWorld.sam_open_format_ok 2 = false) ∧
    (main outputFailWorld).ret = 1 ∧
    closedOutputs (main outputFailWorld).trace =
      [0, 1] ++ (if outputFailWorld.sam_open_format_ok 3 then [3] else []) :=
  ⟨by decide,
   (C5_output_open_failure outputFailWorld (by decide) (by decide) (by decide) (by decide)).1,
   (C5_output_open_failure outputFailWorld (by decide) (by decide) (by decide) (by decide)).2.2.1⟩

theorem copySteps_append (a b : List Event) : copySteps (a ++ b) = copySteps a ++ copySteps b := by
  simp [copySteps]

theorem copySteps_teardown (v : Vars) : copySteps (teardown v) = [] := by
  simp only [copySteps, List.filterMap_eq_nil_iff]
  apply teardown_forall
  intro e he
  cases e <;> simp [Event.releases, Event.copyStep] at he ⊢

theorem copySteps_headerReadCalls (w : World) : copySteps (headerReadCalls w) = [] := by
  simp [copySteps, headerReadCalls, parsedCalls, mallocCalls, parseCall, openCalls, Event.copyStep]

theorem copySteps_headerWriteCalls (w : World) : copySteps (headerWriteCalls w) = [] := by
  simp [copySteps, headerWriteCalls, Event.copyStep]

theorem writesUpTo_0 (b : bam1_t) : writesUpTo 0 b = [.write 0 b] := rfl

theorem writesUpTo_1 (b : bam1_t) : writesUpTo 1 b = [.write 0 b, .write 1 b] := rfl

theorem writesUpTo_2 (b : bam1_t) : writesUpTo 2 b = [.write 0 b, .write 1 b, .write 2 b] := rfl

theorem writesUpTo_3 (b : bam1_t) :
    writesUpTo 3 b = [.write 0 b, .write 1 b, .write 2 b, .write 3 b] := rfl

/-- The loop on an input whose record after `pre` is the first with a failing write, the
write to output `k`. -/
theorem copyLoop_fail (w : World) (c : Int) (b : bam1_t) (post : List (Int × bam1_t)) (k : Fin 4)
    (hc : c ≥ 0) (pre : List (Int × bam1_t)) :
    ∀ i, (∀ p ∈ pre, p.1 ≥ 0) → WritesOk w i pre.length →
      w.sam_write1_ret (i + pre.length) k < 0 →
      (∀ j, j < k → 0 ≤ w.sam_write1_ret (i + pre.length) j) →
      (copyLoop w i (pre ++ (c, b) :: post)).2 = none ∧
      copySteps (copyLoop w i (pre ++ (c, b) :: post)).1 =
        (pre.map (fun p => p.2)).flatMap fullIteration ++ .read :: writesUpTo k b ∧
      Event.printf "Failed to write output data\n" ∈ (copyLoop w i (pre ++ (c, b) :: post)).1 := by
  induction pre with
  | nil =>
    intro i _ _ hk hj
    simp only [List.length_nil, Nat.add_zero] at hk hj
    simp only [List.nil_append, copyLoop, if_pos hc]
    fin_cases k
    · have k0 : w.sam_write1_ret i 0 < 0 := hk
      simp [k0, copySteps, Event.copyStep, writesUpTo_0]
    · have k0 : ¬ w.sam_write1_ret i 0 < 0 := not_lt.mpr (hj 0 (by decide))
      have k1 : w.sam_write1_ret i 1 < 0 := hk
      simp [k0, k1, copySteps, Event.copyStep, writesUpTo_1]
    · have k0 : ¬ w.sam_write1_ret i 0 < 0 := not_lt.mpr (hj 0 (by decide))
      have k1 : ¬ w.sam_write1_ret i 1 < 0 := not_lt.mpr (hj 1 (by decide))
      have k2 : w.sam_write1_ret i 2 < 0 := hk
      simp [k0, k1, k2, copySteps, Event.copyStep, writesUpTo_2]
    · have k0 : ¬ w.sam_write1_ret i 0 < 0 := not_lt.mpr (hj 0 (by decide))
      have k1 : ¬ w.sam_write1_ret i 1 < 0 := not_lt.mpr (hj 1 (by decide))
      have k2 : ¬ w.sam_write1_ret i 2 < 0 := not_lt.mpr (hj 2 (by decide))
      have k3 : w.sam_write1_ret i 3 < 0 := hk
      simp [k0, k1, k2, k3, copySteps, Event.copyStep, writesUpTo_3]
  | cons p pre ih =>
    intro i hpre hok hk hj
    obtain ⟨c', b'⟩ := p
    have hc' : c' ≥ 0 := hpre (c', b') (by simp)
    have h0 : ∀ k : Fin 4, ¬ w.sam_write1_ret i k < 0 :=
      fun k => not_lt.mpr (by simpa using hok 0 (by simp) k)
    have hrest : WritesOk w (i + 1) pre.length := by
      intro j hj k
      have := hok (j + 1) (by simp; omega) k
      rwa [show i + (j + 1) = i + 1 + j by omega] at this
    simp only [List.length_cons] at hk hj
    rw [show i + (pre.length + 1) = i + 1 + pre.length by omega] at hk hj
    obtain ⟨e1, e2, e3⟩ := ih (i + 1) (fun p hp => hpre p (by simp [hp])) hrest hk hj
    simp only [List.cons_append, copyLoop, if_pos hc', if_neg (h0 0), if_neg (h0 1), if_neg (h0 2),
      if_neg (h0 3)]
    refine ⟨e1, ?_, ?_⟩
    · simp [copySteps, Event.copyStep, fullIteration] at e2 ⊢
      exact e2
    · simp [e3]

/-- A run that reaches the loop is the loop followed by lines 139-168. -/
theorem main_reaches_loop (w : World) (h : ReachesLoop w) :
    main w = loopExit w (copyLoop w 0 w.sam_read1_results) := by
  revert h
  apply main_ind w (fun r => ReachesLoop w → r = loopExit w (copyLoop w 0 w.sam_read1_results))
  case h_write =>
    intro _ ltr hcl _
    rw [hcl]
    rfl
  case h_eof =>
    intro _ ltr hcl _
    rw [hcl]
    rfl
  case h_read =>
    intro _ ltr c hcl hc _
    rw [hcl]
    simp only [loopExit]
    rw [if_neg (fun h => hc h.symm)]
  all_goals
    intros
    simp_all [ReachesLoop, ReachesHeaderWrite, ReachesHeaderRead, ReachesOutputOpen,
      ReachesInputOpen, ArgsOk, BuffersOk, FormatsOk, OutputsOk, HeaderWritesOk]

theorem copySteps_loopExit (w : World) (x : List Event × Option Int) :
    copySteps (loopExit w x).trace = copySteps x.1 := by
  obtain ⟨ltr, o⟩ := x
  cases o with
  | none =>
    simp [loopExit, finish_trace, copySteps_append, copySteps_teardown, copySteps_headerReadCalls,
      copySteps_headerWriteCalls]
  | some c =>
    have hp : ∀ m l, copySteps (Event.printf m :: l) = copySteps l := fun _ _ => rfl
    simp only [loopExit]
    split <;>
    simp [finish_trace, copySteps_append, copySteps_teardown, copySteps_headerReadCalls,
      copySteps_headerWriteCalls, hp]

/-- C6: in a run that reaches the copy loop, (1) as long as no write fails, every record
read is written to outputs 0, 1, 2, 3 in this order before the next read; (2) when the
write of a record to output `k` is the first to return a negative result, the records
before it have been written to the four outputs in order, this record has been written
to outputs 0 .. `k` only, and the loop stops there: no further read, no further write,
the message is printed and `main` returns 1. -/
theorem C6_first_write_failure_aborts (w : World) (hl : ReachesLoop w) :
    (WritesOk w 0 (recordsRead w.sam_read1_results).length →
      copySteps (main w).trace =
        (recordsRead w.sam_read1_results).flatMap fullIteration ++ [.read]) ∧
    (∀ pre post c b k, w.sam_read1_results = pre ++ (c, b) :: post →
      (∀ p ∈ pre, p.1 ≥ 0) → c ≥ 0 → WritesOk w 0 pre.length →
      w.sam_write1_ret pre.length k < 0 →
      (∀ j, j < k → 0 ≤ w.sam_write1_ret pre.length j) →
      copySteps (main w).trace =
        (pre.map (fun p => p.2)).flatMap fullIteration ++ .read :: writesUpTo k b ∧
      Event.printf "Failed to write output data\n" ∈ (main w).trace ∧
      (main w).ret = 1) := by
  rw [main_reaches_loop w hl]
  constructor
  · intro hok
    rw [copySteps_loopExit]
    exact (copyLoop_ok w _ 0 hok).2.1
  · intro pre post c b k hreads hpre hc hok hk hj
    rw [copySteps_loopExit, hreads]
    have hk' : w.sam_write1_ret (0 + pre.length) k < 0 := by simpa using hk
    have hj' : ∀ j, j < k → 0 ≤ w.sam_write1_ret (0 + pre.length) j := by simpa using hj
    obtain ⟨e1, e2, e3⟩ := copyLoop_fail w c b post k hc pre 0 hpre hok hk' hj'
    refine ⟨e2, ?_, ?_⟩
    · cases hcl : copyLoop w 0 (pre ++ (c, b) :: post) with
      | mk ltr o =>
        rw [hcl] at e1 e3
        simp only at e1 e3
        subst e1
        simp [loopExit, finish_trace, e3]
    · cases hcl : copyLoop w 0 (pre ++ (c, b) :: post) with
      | mk ltr o =>
        rw [hcl] at e1
        simp only at e1
        subst e1
        rfl

theorem C6_first_write_failure_aborts_witness :
    ReachesLoop writeFailWorld ∧
    copySteps (main (okWorld [7, 8])).trace = fullIteration 7 ++ fullIteration 8 ++ [.read] ∧
    copySteps (main writeFailWorld).trace =
      fullIteration 7 ++ [.read, .write 0 8, .write 1 8, .write 2 8] ∧
    Event.printf "Failed to write output data\n" ∈ (main writeFailWorld).trace ∧
    (main writeFailWorld).ret = 1 :=
  ⟨by decide,
   (C6_first_write_failure_aborts (okWorld [7, 8]) (by decide)).1 (by decide),
   (C6_first_write_failure_aborts writeFailWorld (by decide)).2 [(0, 7)] [(0, 9)] 0 8 2
     (by decide) (by decide) (by decide) (by decide) (by decide) (by decide)⟩

theorem copyLoop_head (w : World) (i : Nat) (l : List (Int × bam1_t)) :
    ∃ c rest, (copyLoop w i l).1 = .sam_read1 c :: rest := by
  cases l with
  | nil => exact ⟨-1, [], rfl⟩
  | cons p rest =>
    obtain ⟨c, b⟩ := p
    simp only [copyLoop]
    split_ifs <;> exact ⟨c, _, rfl⟩

theorem copyLoop_none_printf (w : World) (l : List (Int × bam1_t)) :
    ∀ i, (copyLoop w i l).2 = none →
      Event.printf "Failed to write output data\n" ∈ (copyLoop w i l).1 := by
  induction l with
  | nil => intro i h; simp [copyLoop] at h
  | cons p rest ih =>
    intro i h
    obtain ⟨c, b⟩ := p
    simp only [copyLoop] at h ⊢
    split_ifs at h ⊢
    · simp
    · simp
    · simp
    · simp
    · simp [ih (i + 1) h]

theorem copyLoop_headerWrites (w : World) (l : List (Int × bam1_t)) :
    ∀ i, headerWrites (copyLoop w i l).1 = [] := by
  induction l with
  | nil => intro i; rfl
  | cons p rest ih =>
    intro i
    obtain ⟨c, b⟩ := p
    have := ih (i + 1)
    simp only [headerWrites] at this
    simp only [copyLoop]
    split_ifs <;> simp [headerWrites, Event.isHeaderWrite, this]

theorem headerWrites_append (a b : List Event) :
    headerWrites (a ++ b) = headerWrites a ++ headerWrites b := by
  simp [headerWrites]

theorem headerWrites_teardown (v : Vars) : headerWrites (teardown v) = [] := by
  simp only [headerWrites, List.filter_eq_nil_iff]
  apply teardown_forall
  intro e he
  cases e <;> simp [Event.releases, Event.isHeaderWrite] at he ⊢

theorem headerWrites_headerReadCalls (w : World) : headerWrites (headerReadCalls w) = [] := by
  simp [headerWrites, headerReadCalls, parsedCalls, mallocCalls, parseCall, openCalls,
    Event.isHeaderWrite]

theorem headerWrites_headerWriteCalls (w : World) (n : Nat) :
    headerWrites ((headerWriteCalls w).take n) = (headerWriteCalls w).take n := by
  simp only [headerWrites, List.filter_eq_self]
  intro e he
  have he' := List.mem_of_mem_take he
  simp only [headerWriteCalls, List.mem_cons, List.mem_singleton, List.not_mem_nil, or_false] at he'
  rcases he' with rfl | rfl | rfl | rfl <;> rfl

theorem headerWrites_loopExit (w : World) (x : List Event × Option Int) :
    headerWrites (loopExit w x).trace = headerWriteCalls w ++ headerWrites x.1 := by
  have h4 := headerWrites_headerWriteCalls w 4
  have ht : (headerWriteCalls w).take 4 = headerWriteCalls w := rfl
  rw [ht] at h4
  have hp : ∀ m l, headerWrites (Event.printf m :: l) = headerWrites l := fun _ _ => rfl
  obtain ⟨ltr, o⟩ := x
  cases o with
  | none =>
    simp [loopExit, finish_trace, headerWrites_append, headerWrites_teardown,
      headerWrites_headerReadCalls, h4]
  | some c =>
    simp only [loopExit]
    split <;>
    simp [finish_trace, headerWrites_append, headerWrites_teardown,
      headerWrites_headerReadCalls, h4, hp]

/-- The run in which the header write to output `k` is the first to return -1. -/
theorem main_header_write_failure (w : World) (h : ReachesHeaderWrite w) (k : Fin 4)
    (hj : ∀ j, j < k → w.sam_hdr_write_ret j ≠ -1) (hk : w.sam_hdr_write_ret k = -1) :
    main w = finish (fullVars w)
      (headerReadCalls w ++ (headerWriteCalls w).take (k.val + 1) ++
        [.printf "Failed to write header\n"]) := by
  revert h k
  apply main_ind w (fun r => ReachesHeaderWrite w → ∀ k : Fin 4,
    (∀ j, j < k → w.sam_hdr_write_ret j ≠ -1) → w.sam_hdr_write_ret k = -1 →
    r = finish (fullVars w)
      (headerReadCalls w ++ (headerWriteCalls w).take (k.val + 1) ++
        [Event.printf "Failed to write header\n"]))
  case h_hdr_write0 =>
    intro _ h0 _ k hj hk
    fin_cases k
    · rfl
    · exact absurd h0 (hj 0 (by decide))
    · exact absurd h0 (hj 0 (by decide))
    · exact absurd h0 (hj 0 (by decide))
  case h_hdr_write1 =>
    intro _ h0 h1 _ k hj hk
    fin_cases k
    · exact absurd hk h0
    · rfl
    · exact absurd h1 (hj 1 (by decide))
    · exact absurd h1 (hj 1 (by decide))
  case h_hdr_write2 =>
    intro _ h0 h1 h2 _ k hj hk
    fin_cases k
    · exact absurd hk h0
    · exact absurd hk h1
    · rfl
    · exact absurd h2 (hj 2 (by decide))
  case h_hdr_write3 =>
    intro _ h0 h1 h2 h3 _ k hj hk
    fin_cases k
    · exact absurd hk h0
    · exact absurd hk h1
    · exact absurd hk h2
    · rfl
  case h_write =>
    intro hl _ _ _ k hj hk
    obtain ⟨-, h0, h1, h2, h3⟩ := hl
    fin_cases k
    · exact absurd hk h0
    · exact absurd hk h1
    · exact absurd hk h2
    · exact absurd hk h3
  case h_eof =>
    intro hl _ _ _ k hj hk
    obtain ⟨-, h0, h1, h2, h3⟩ := hl
    fin_cases k
    · exact absurd hk h0
    · exact absurd hk h1
    · exact absurd hk h2
    · exact absurd hk h3
  case h_read =>
    intro hl _ _ _ _ _ k hj hk
    obtain ⟨-, h0, h1, h2, h3⟩ := hl
    fin_cases k
    · exact absurd hk h0
    · exact absurd hk h1
    · exact absurd hk h2
    · exact absurd hk h3
  all_goals
    intros
    simp_all [ReachesHeaderWrite, ReachesHeaderRead, ReachesOutputOpen,
      ReachesInputOpen, ArgsOk, BuffersOk, FormatsOk, OutputsOk]

/-- C10: in a run in which the header was read, (1) when no header write returns -1
(whatever else the four calls return, negative values included) all four header writes
are made and the copy loop is entered; (2) when the header write to output `k` is the
first to return -1, the header writes stop there, the loop is not entered, the failure
is reported and `main` returns 1; (3) in the loop, a record write that returns any
negative result makes the run fail with the write error. -/
theorem C10_header_write_failure_only_minus_one (w : World) (h : ReachesHeaderWrite w) :
    (HeaderWritesOk w →
      headerWrites (main w).trace = headerWriteCalls w ∧ copySteps (main w).trace ≠ []) ∧
    (∀ k : Fin 4, (∀ j, j < k → w.sam_hdr_write_ret j ≠ -1) → w.sam_hdr_write_ret k = -1 →
      headerWrites (main w).trace = (headerWriteCalls w).take (k.val + 1) ∧
      copySteps (main w).trace = [] ∧
      Event.printf "Failed to write header\n" ∈ (main w).trace ∧ (main w).ret = 1) ∧
    (HeaderWritesOk w → ¬ WritesOk w 0 (recordsRead w.sam_read1_results).length →
      Event.printf "Failed to write output data\n" ∈ (main w).trace ∧ (main w).ret = 1) := by
  refine ⟨fun hw => ?_, fun k hj hk => ?_, fun hw hn => ?_⟩
  · rw [main_reaches_loop w ⟨h, hw⟩, headerWrites_loopExit, copySteps_loopExit,
      copyLoop_headerWrites]
    obtain ⟨c, rest, hc⟩ := copyLoop_head w 0 w.sam_read1_results
    rw [hc]
    simp [copySteps, Event.copyStep]
  · rw [main_header_write_failure w h k hj hk]
    have hp : ∀ m l, headerWrites (Event.printf m :: l) = headerWrites l := fun _ _ => rfl
    have hq : ∀ m l, copySteps (Event.printf m :: l) = copySteps l := fun _ _ => rfl
    have hc : copySteps ((headerWriteCalls w).take (k.val + 1)) = [] := by
      simp only [copySteps, List.filterMap_eq_nil_iff]
      intro e he
      have he' := List.mem_of_mem_take he
      simp only [headerWriteCalls, List.mem_cons, List.mem_singleton, List.not_mem_nil,
        or_false] at he'
      rcases he' with rfl | rfl | rfl | rfl <;> rfl
    refine ⟨?_, ?_, ?_, rfl⟩
    · simp [finish_trace, headerWrites_append, headerWrites_teardown,
        headerWrites_headerReadCalls, headerWrites_headerWriteCalls, hp]
    · simp [finish_trace, copySteps_append, copySteps_teardown, copySteps_headerReadCalls, hc, hq]
    · simp [finish_trace]
  · rw [main_reaches_loop w ⟨h, hw⟩]
    have h2 := copyLoop_none w _ 0 hn
    have h3 := copyLoop_none_printf w _ 0 h2
    cases hcl : copyLoop w 0 w.sam_read1_results with
    | mk ltr o =>
      rw [hcl] at h2 h3
      simp only at h2 h3
      subst h2
      exact ⟨by simp [loopExit, finish_trace, h3], rfl⟩

theorem C10_header_write_failure_only_minus_one_witness :
    (ReachesHeaderWrite headerMinusTwoWorld ∧ HeaderWritesOk headerMinusTwoWorld ∧
      headerWrites (main headerMinusTwoWorld).trace = headerWriteCalls headerMinusTwoWorld ∧
      copySteps (main headerMinusTwoWorld).trace ≠ []) ∧
    (ReachesHeaderWrite headerFailWorld ∧ headerFailWorld.sam_hdr_write_ret 1 = -1 ∧
      headerWrites (main headerFailWorld).trace = (headerWriteCalls headerFailWorld).take 2 ∧
      (main headerFailWorld).ret = 1) ∧
    (ReachesHeaderWrite writeFailWorld ∧
      Event.printf "Failed to write output data\n" ∈ (main writeFailWorld).trace ∧
      (main writeFailWorld).ret = 1) :=
  ⟨⟨by decide, by decide,
    (C10_header_write_failure_only_minus_one headerMinusTwoWorld (by decide)).1 (by decide)⟩,
   ⟨by decide, by decide,
    ((C10_header_write_failure_only_minus_one headerFailWorld (by decide)).2.1 1
      (by decide) (by decide)).1,
    ((C10_header_write_failure_only_minus_one headerFailWorld (by decide)).2.1 1
      (by decide) (by decide)).2.2.2⟩,
   ⟨by decide,
    (C10_header_write_failure_only_minus_one writeFailWorld (by decide)).2.2
      (by decide) (by decide)⟩⟩

theorem to_int_small (n : Nat) (h : n < 2 ^ 31) : to_int (size_t_wrap n) = (n : Int) := by
  have h1 : n % 2 ^ 64 = n := Nat.mod_eq_of_lt (by omega)
  have h2 : n % 2 ^ 32 = n := Nat.mod_eq_of_lt (by omega)
  simp only [to_int, size_t_wrap, h1, h2, if_pos h]

theorem to_size_t_small (n : Nat) (h : n < 2 ^ 31) : to_size_t (n : Int) = n := by
  unfold to_size_t
  have : (n : Int) % 2 ^ 64 = n := Int.emod_eq_of_lt (by omega) (by omega)
  rw [this]
  simp

/-- A buffer of `n` bytes holds a text of fewer than `n` characters whole. -/
theorem snprintf_fits (n : Nat) (s : CString) (h : n < 2 ^ 31) (hs : s.length + 1 ≤ n) :
    snprintf (to_int (size_t_wrap n)) s = s := by
  unfold snprintf
  rw [to_int_small n h, to_size_t_small n h]
  exact List.take_of_length_le (by omega)

theorem s_reffmt1_eq (w : World) (h : w.reffile.length + 29 < 2 ^ 31) :
    s_reffmt1 w = "cram,reference=".toList ++ w.reffile := by
  unfold s_reffmt1 size1
  apply snprintf_fits
  · simp [strlen, sizeof_lit]
    omega
  · simp [strlen, sizeof_lit]

theorem s_reffmt2_eq (w : World) (h : w.reffile.length + 29 < 2 ^ 31) :
    s_reffmt2 w = "cram,embed_ref=1,reference=".toList ++ w.reffile := by
  unfold s_reffmt2 size2
  apply snprintf_fits
  · simp [strlen, sizeof_lit]
    omega
  · simp [strlen, sizeof_lit]

theorem s_file_eq (w : World) (h : w.outdir.length + 9 < 2 ^ 31) (k : Fin 4) :
    s_file w k = expectedPath w.outdir k := by
  have : s_file w k = w.outdir ++ outname k := by
    unfold s_file size3
    apply snprintf_fits
    · simp [strlen, sizeof_lit]
      omega
    · fin_cases k <;> simp [strlen, sizeof_lit, outname]
  rw [this]
  fin_cases k <;> simp [expectedPath, outname] <;> rfl

theorem optionString_eq (w : World) (h : w.reffile.length + 29 < 2 ^ 31) (k : Fin 4) :
    optionString w k = expectedOption w.reffile k := by
  fin_cases k
  · exact s_reffmt1_eq w h
  · exact s_reffmt2_eq w h
  · rfl
  · rfl

theorem teardown_filterMap_nil {α : Type} (f : Event → Option α)
    (hf : ∀ e : Event, e.releases ≠ none → f e = none) (v : Vars) :
    (teardown v).filterMap f = [] := by
  simp only [List.filterMap_eq_nil_iff]
  exact teardown_forall _ hf v

theorem copyLoop_filterMap_nil {α : Type} (f : Event → Option α)
    (hr : ∀ c, f (.sam_read1 c) = none) (hw : ∀ k b r, f (.sam_write1 k b r) = none)
    (hp : ∀ m, f (.printf m) = none) (w : World) (l : List (Int × bam1_t)) :
    ∀ i, (copyLoop w i l).1.filterMap f = [] := by
  induction l with
  | nil => intro i; simp [copyLoop, hr]
  | cons p rest ih =>
    intro i
    obtain ⟨c, b⟩ := p
    simp only [copyLoop]
    split_ifs <;> simp [hr, hw, hp, ih (i + 1)]

theorem openedPath_teardown (v : Vars) : (teardown v).filterMap Event.openedPath = [] :=
  teardown_filterMap_nil Event.openedPath
    (fun e he => by cases e <;> simp [Event.releases, Event.openedPath] at he ⊢) v

theorem parsedOption_teardown (v : Vars) : (teardown v).filterMap Event.parsedOption = [] :=
  teardown_filterMap_nil Event.parsedOption
    (fun e he => by cases e <;> simp [Event.releases, Event.parsedOption] at he ⊢) v

theorem openedPath_copyLoop (w : World) (ltr : List Event) (o : Option Int)
    (h : copyLoop w 0 w.sam_read1_results = (ltr, o)) : ltr.filterMap Event.openedPath = [] := by
  have := copyLoop_filterMap_nil Event.openedPath (fun _ => rfl) (fun _ _ _ => rfl)
    (fun _ => rfl) w w.sam_read1_results 0
  rwa [h] at this

theorem parsedOption_copyLoop (w : World) (ltr : List Event) (o : Option Int)
    (h : copyLoop w 0 w.sam_read1_results = (ltr, o)) : ltr.filterMap Event.parsedOption = [] := by
  have := copyLoop_filterMap_nil Event.parsedOption (fun _ => rfl) (fun _ _ _ => rfl)
    (fun _ => rfl) w w.sam_read1_results 0
  rwa [h] at this

set_option maxHeartbeats 4000000 in
theorem main_calls_as_written (w : World) : CallsAsWritten w (main w) := by
  apply main_ind w (CallsAsWritten w)
  case h_usage =>
    intro h
    refine ⟨?_, ?_, fun hr => absurd hr.1.1 h⟩ <;>
      simp [finish_trace, openedPath_teardown, parsedOption_teardown, Event.openedPath,
        Event.parsedOption, print_usage]
  case h_malloc =>
    intro _ h
    refine ⟨?_, ?_, fun hr => absurd hr.1.2.1 h⟩ <;>
      simp [finish_trace, openedPath_teardown, parsedOption_teardown, Event.openedPath,
        Event.parsedOption, mallocCalls]
  case h_parse0 =>
    intro _ _ h
    refine ⟨?_, ?_, fun hr => absurd h hr.1.2.2.1.1⟩ <;>
      simp [finish_trace, openedPath_teardown, parsedOption_teardown, Event.openedPath,
        Event.parsedOption, mallocCalls, parseCall]
  case h_parse1 =>
    intro _ _ _ h
    refine ⟨?_, ?_, fun hr => absurd h hr.1.2.2.1.2.1⟩ <;>
      simp [finish_trace, openedPath_teardown, parsedOption_teardown, Event.openedPath,
        Event.parsedOption, mallocCalls, parseCall]
  case h_parse2 =>
    intro _ _ _ _ h
    refine ⟨?_, ?_, fun hr => absurd h hr.1.2.2.1.2.2.1⟩ <;>
      simp [finish_trace, openedPath_teardown, parsedOption_teardown, Event.openedPath,
        Event.parsedOption, mallocCalls, parseCall, parsedCalls, openCalls, headerReadCalls,
        headerWriteCalls, openArguments, parseArguments, fullVars, parsedVars, filledBuffers]
  case h_parse3 =>
    intro _ _ _ _ _ h
    refine ⟨?_, ?_, fun hr => absurd h hr.1.2.2.1.2.2.2⟩ <;>
      simp [finish_trace, openedPath_teardown, parsedOption_teardown, Event.openedPath,
        Event.parsedOption, mallocCalls, parseCall, parsedCalls, openCalls, headerReadCalls,
        headerWriteCalls, openArguments, parseArguments, fullVars, parsedVars, filledBuffers]
  case h_bam =>
    intro _ _ _ h
    refine ⟨?_, ?_, fun hr => by simp [hr.1.2.2.2] at h⟩ <;>
      simp [finish_trace, openedPath_teardown, parsedOption_teardown, Event.openedPath,
        Event.parsedOption, mallocCalls, parseCall, parsedCalls, openCalls, headerReadCalls,
        headerWriteCalls, openArguments, parseArguments, fullVars, parsedVars, filledBuffers]
  case h_input =>
    intro _ h
    refine ⟨?_, ?_, fun hr => by simp [hr.2] at h⟩ <;>
      simp [finish_trace, openedPath_teardown, parsedOption_teardown, Event.openedPath,
        Event.parsedOption, mallocCalls, parseCall, parsedCalls, openCalls, headerReadCalls,
        headerWriteCalls, openArguments, parseArguments, fullVars, parsedVars, filledBuffers]
  case h_output =>
    intro _ _
    refine ⟨?_, ?_, fun _ => ⟨?_, ?_⟩⟩ <;>
      simp [finish_trace, openedPath_teardown, parsedOption_teardown, Event.openedPath,
        Event.parsedOption, mallocCalls, parseCall, parsedCalls, openCalls, headerReadCalls,
        headerWriteCalls, openArguments, parseArguments, fullVars, parsedVars, filledBuffers]
  case h_hdr_read =>
    intro _ _
    refine ⟨?_, ?_, fun _ => ⟨?_, ?_⟩⟩ <;>
      simp [finish_trace, openedPath_teardown, parsedOption_teardown, Event.openedPath,
        Event.parsedOption, mallocCalls, parseCall, parsedCalls, openCalls, headerReadCalls,
        headerWriteCalls, openArguments, parseArguments, fullVars, parsedVars, filledBuffers]
  case h_hdr_write0 =>
    intro _ _
    refine ⟨?_, ?_, fun _ => ⟨?_, ?_⟩⟩ <;>
      simp [finish_trace, openedPath_teardown, parsedOption_teardown, Event.openedPath,
        Event.parsedOption, mallocCalls, parseCall, parsedCalls, openCalls, headerReadCalls,
        headerWriteCalls, openArguments, parseArguments, fullVars, parsedVars, filledBuffers]
  case h_hdr_write1 =>
    intro _ _ _
    refine ⟨?_, ?_, fun _ => ⟨?_, ?_⟩⟩ <;>
      simp [finish_trace, openedPath_teardown, parsedOption_teardown, Event.openedPath,
        Event.parsedOption, mallocCalls, parseCall, parsedCalls, openCalls, headerReadCalls,
        headerWriteCalls, openArguments, parseArguments, fullVars, parsedVars, filledBuffers]
  case h_hdr_write2 =>
    intro _ _ _ _
    refine ⟨?_, ?_, fun _ => ⟨?_, ?_⟩⟩ <;>
      simp [finish_trace, openedPath_teardown, parsedOption_teardown, Event.openedPath,
        Event.parsedOption, mallocCalls, parseCall, parsedCalls, openCalls, headerReadCalls,
        headerWriteCalls, openArguments, parseArguments, fullVars, parsedVars, filledBuffers]
  case h_hdr_write3 =>
    intro _ _ _ _ _
    refine ⟨?_, ?_, fun _ => ⟨?_, ?_⟩⟩ <;>
      simp [finish_trace, openedPath_teardown, parsedOption_teardown, Event.openedPath,
        Event.parsedOption, mallocCalls, parseCall, parsedCalls, openCalls, headerReadCalls,
        headerWriteCalls, openArguments, parseArguments, fullVars, parsedVars, filledBuffers]
  case h_write =>
    intro _ ltr hcl
    have l1 := openedPath_copyLoop w ltr _ hcl
    have l2 := parsedOption_copyLoop w ltr _ hcl
    refine ⟨?_, ?_, fun _ => ⟨?_, ?_⟩⟩ <;>
      simp [finish_trace, openedPath_teardown, parsedOption_teardown, Event.openedPath,
        Event.parsedOption, mallocCalls, parseCall, parsedCalls, openCalls, headerReadCalls,
        headerWriteCalls, openArguments, parseArguments, fullVars, parsedVars, filledBuffers, l1, l2]
  case h_eof =>
    intro _ ltr hcl
    have l1 := openedPath_copyLoop w ltr _ hcl
    have l2 := parsedOption_copyLoop w ltr _ hcl
    refine ⟨?_, ?_, fun _ => ⟨?_, ?_⟩⟩ <;>
      simp [finish_trace, openedPath_teardown, parsedOption_teardown, Event.openedPath,
        Event.parsedOption, mallocCalls, parseCall, parsedCalls, openCalls, headerReadCalls,
        headerWriteCalls, openArguments, parseArguments, fullVars, parsedVars, filledBuffers, l1, l2]
  case h_read =>
    intro _ ltr c hcl _
    have l1 := openedPath_copyLoop w ltr _ hcl
    have l2 := parsedOption_copyLoop w ltr _ hcl
    refine ⟨?_, ?_, fun _ => ⟨?_, ?_⟩⟩ <;>
      simp [finish_trace, openedPath_teardown, parsedOption_teardown, Event.openedPath,
        Event.parsedOption, mallocCalls, parseCall, parsedCalls, openCalls, headerReadCalls,
        headerWriteCalls, openArguments, parseArguments, fullVars, parsedVars, filledBuffers, l1, l2]

/-- C7: when the lengths of the reference path and of the output directory, with the
fixed parts added, fit in a 32-bit `int`, no `snprintf` truncates: the buffers hold
exactly the paths outdir/1.cram .. outdir/4.cram and the two option strings that name
the reference; every `sam_open_format` call of a run is given the path of its output and
every `hts_parse_format` call the option string of its format; and a run that gets to
open the outputs has parsed the four option strings and opened the four paths, in order. -/
theorem C7_paths_and_option_strings (w : World)
    (h1 : w.reffile.length + 29 < 2 ^ 31) (h2 : w.outdir.length + 9 < 2 ^ 31) :
    (s_reffmt1 w = "cram,reference=".toList ++ w.reffile ∧
      s_reffmt2 w = "cram,embed_ref=1,reference=".toList ++ w.reffile ∧
      ∀ k, s_file w k = expectedPath w.outdir k) ∧
    (∀ x ∈ (main w).trace.filterMap Event.openedPath, x.2 = expectedPath w.outdir x.1) ∧
    (∀ x ∈ (main w).trace.filterMap Event.parsedOption, x.2 = expectedOption w.reffile x.1) ∧
    (ReachesOutputOpen w →
      (main w).trace.filterMap Event.openedPath =
        [(0, expectedPath w.outdir 0), (1, expectedPath w.outdir 1),
         (2, expectedPath w.outdir 2), (3, expectedPath w.outdir 3)] ∧
      (main w).trace.filterMap Event.parsedOption =
        [(0, expectedOption w.reffile 0), (1, expectedOption w.reffile 1),
         (2, expectedOption w.reffile 2), (3, expectedOption w.reffile 3)]) := by
  obtain ⟨c1, c2, c3⟩ := main_calls_as_written w
  refine ⟨⟨s_reffmt1_eq w h1, s_reffmt2_eq w h1, s_file_eq w h2⟩, ?_, ?_, fun hr => ?_⟩
  · intro x hx
    rw [c1 x hx, s_file_eq w h2]
  · intro x hx
    rw [c2 x hx, optionString_eq w h1]
  · obtain ⟨d1, d2⟩ := c3 hr
    rw [d1, d2]
    simp [openArguments, parseArguments, s_file_eq w h2, optionString_eq w h1]

theorem C7_paths_and_option_strings_witness :
    ((okWorld [7]).reffile.length + 29 < 2 ^ 31 ∧ (okWorld [7]).outdir.length + 9 < 2 ^ 31 ∧
      ReachesOutputOpen (okWorld [7])) ∧
    (main (okWorld [7])).trace.filterMap Event.openedPath =
      [(0, "out/1.cram".toList), (1, "out/2.cram".toList), (2, "out/3.cram".toList),
       (3, "out/4.cram".toList)] ∧
    (main (okWorld [7])).trace.filterMap Event.parsedOption =
      [(0, "cram,reference=ref.fa".toList), (1, "cram,embed_ref=1,reference=ref.fa".toList),
       (2, "cram,embed_ref=2".toList), (3, "cram,no_ref=1".toList)] :=
  ⟨by decide,
   ((C7_paths_and_option_strings (okWorld [7]) (by decide) (by decide)).2.2.2 (by decide)).1,
   ((C7_paths_and_option_strings (okWorld [7]) (by decide) (by decide)).2.2.2 (by decide)).2⟩

theorem not_mem_teardown (e : Event) (h : e.releases = none) (v : Vars) : e ∉ teardown v :=
  fun he => teardown_forall (fun x => x.releases ≠ none) (fun _ hx => hx) v e he h

/-- The stage predicates hold of a run exactly when the run makes the calls they name. -/
theorem stages_as_in_trace (w : World) : StagesAsInTrace w (main w) := by
  have t1 : ∀ v ok, Event.sam_open w.inname ok ∉ teardown v :=
    fun v ok => not_mem_teardown (Event.sam_open w.inname ok) rfl v
  have t2 : ∀ v ok, Event.sam_hdr_read ok ∉ teardown v :=
    fun v ok => not_mem_teardown (Event.sam_hdr_read ok) rfl v
  have t3 : ∀ v c, Event.sam_read1 c ∉ teardown v :=
    fun v c => not_mem_teardown (Event.sam_read1 c) rfl v
  apply main_ind w (StagesAsInTrace w)
  case h_usage =>
    intro h
    have n1 : ¬ ReachesInputOpen w := fun hr => h hr.1
    have n2 : ¬ ReachesOutputOpen w := fun hr => n1 hr.1
    have n3 : ¬ ReachesHeaderRead w := fun hr => n2 hr.1
    have n4 : ¬ ReachesHeaderWrite w := fun hr => n3 hr.1
    have n5 : ¬ ReachesLoop w := fun hr => n4 hr.1
    simp [StagesAsInTrace, finish_trace, t1, t2, t3, n1, n2, n3, n4, n5, mallocCalls, parsedCalls, parseCall, openCalls, headerReadCalls, headerWriteCalls, print_usage]
  case h_malloc =>
    intro _ h
    have n1 : ¬ ReachesInputOpen w := fun hr => h hr.2.1
    have n2 : ¬ ReachesOutputOpen w := fun hr => n1 hr.1
    have n3 : ¬ ReachesHeaderRead w := fun hr => n2 hr.1
    have n4 : ¬ ReachesHeaderWrite w := fun hr => n3 hr.1
    have n5 : ¬ ReachesLoop w := fun hr => n4 hr.1
    simp [StagesAsInTrace, finish_trace, t1, t2, t3, n1, n2, n3, n4, n5, mallocCalls, parsedCalls, parseCall, openCalls, headerReadCalls, headerWriteCalls, print_usage]
  case h_parse0 =>
    intro _ _ h
    have n1 : ¬ ReachesInputOpen w := fun hr => hr.2.2.1.1 h
    have n2 : ¬ ReachesOutputOpen w := fun hr => n1 hr.1
    have n3 : ¬ ReachesHeaderRead w := fun hr => n2 hr.1
    have n4 : ¬ ReachesHeaderWrite w := fun hr => n3 hr.1
    have n5 : ¬ ReachesLoop w := fun hr => n4 hr.1
    simp [StagesAsInTrace, finish_trace, t1, t2, t3, n1, n2, n3, n4, n5, mallocCalls, parsedCalls, parseCall, openCalls, headerReadCalls, headerWriteCalls, print_usage]
  case h_parse1 =>
    intro _ _ _ h
    have n1 : ¬ ReachesInputOpen w := fun hr => hr.2.2.1.2.1 h
    have n2 : ¬ ReachesOutputOpen w := fun hr => n1 hr.1
    have n3 : ¬ ReachesHeaderRead w := fun hr => n2 hr.1
    have n4 : ¬ ReachesHeaderWrite w := fun hr => n3 hr.1
    have n5 : ¬ ReachesLoop w := fun hr => n4 hr.1
    simp [StagesAsInTrace, finish_trace, t1, t2, t3, n1, n2, n3, n4, n5, mallocCalls, parsedCalls, parseCall, openCalls, headerReadCalls, headerWriteCalls, print_usage]
  case h_parse2 =>
    intro _ _ _ _ h
    have n1 : ¬ ReachesInputOpen w := fun hr => hr.2.2.1.2.2.1 h
    have n2 : ¬ ReachesOutputOpen w := fun hr => n1 hr.1
    have n3 : ¬ ReachesHeaderRead w := fun hr => n2 hr.1
    have n4 : ¬ ReachesHeaderWrite w := fun hr => n3 hr.1
    have n5 : ¬ ReachesLoop w := fun hr => n4 hr.1
    simp [StagesAsInTrace, finish_trace, t1, t2, t3, n1, n2, n3, n4, n5, mallocCalls, parsedCalls, parseCall, openCalls, headerReadCalls, headerWriteCalls, print_usage]
  case h_parse3 =>
    intro _ _ _ _ _ h
    have n1 : ¬ ReachesInputOpen w := fun hr => hr.2.2.1.2.2.2 h
    have n2 : ¬ ReachesOutputOpen w := fun hr => n1 hr.1
    have n3 : ¬ ReachesHeaderRead w := fun hr => n2 hr.1
    have n4 : ¬ ReachesHeaderWrite w := fun hr => n3 hr.1
    have n5 : ¬ ReachesLoop w := fun hr => n4 hr.1
    simp [StagesAsInTrace, finish_trace, t1, t2, t3, n1, n2, n3, n4, n5, mallocCalls, parsedCalls, parseCall, openCalls, headerReadCalls, headerWriteCalls, print_usage]
  case h_bam =>
    intro _ _ _ h
    have n1 : ¬ ReachesInputOpen w := fun hr => by simp [hr.2.2.2] at h
    have n2 : ¬ ReachesOutputOpen w := fun hr => n1 hr.1
    have n3 : ¬ ReachesHeaderRead w := fun hr => n2 hr.1
    have n4 : ¬ ReachesHeaderWrite w := fun hr => n3 hr.1
    have n5 : ¬ ReachesLoop w := fun hr => n4 hr.1
    simp [StagesAsInTrace, finish_trace, t1, t2, t3, n1, n2, n3, n4, n5, mallocCalls, parsedCalls, parseCall, openCalls, headerReadCalls, headerWriteCalls, print_usage]
  case h_input =>
    intro h1 h
    have n2 : ¬ ReachesOutputOpen w := fun hr => by simp [hr.2] at h
    have n3 : ¬ ReachesHeaderRead w := fun hr => n2 hr.1
    have n4 : ¬ ReachesHeaderWrite w := fun hr => n3 hr.1
    have n5 : ¬ ReachesLoop w := fun hr => n4 hr.1
    simp [StagesAsInTrace, finish_trace, t1, t2, t3, h1, n2, n3, n4, n5, mallocCalls, parsedCalls, parseCall, openCalls, headerReadCalls, headerWriteCalls, print_usage]
  case h_output =>
    intro h2 h
    have h1 := h2.1
    have n3 : ¬ ReachesHeaderRead w := fun hr => h hr.2
    have n4 : ¬ ReachesHeaderWrite w := fun hr => n3 hr.1
    have n5 : ¬ ReachesLoop w := fun hr => n4 hr.1
    simp [StagesAsInTrace, finish_trace, t1, t2, t3, h1, h2, n3, n4, n5, mallocCalls, parsedCalls, parseCall, openCalls, headerReadCalls, headerWriteCalls, print_usage]
  case h_hdr_read =>
    intro h3 h
    have h2 := h3.1
    have h1 := h2.1
    have n4 : ¬ ReachesHeaderWrite w := fun hr => by simp [hr.2] at h
    have n5 : ¬ ReachesLoop w := fun hr => n4 hr.1
    simp [StagesAsInTrace, finish_trace, t1, t2, t3, h1, h2, h3, n4, n5, mallocCalls, parsedCalls, parseCall, openCalls, headerReadCalls, headerWriteCalls, print_usage]
  case h_hdr_write0 =>
    intro h4 h
    have h3 := h4.1
    have h2 := h3.1
    have h1 := h2.1
    have n5 : ¬ ReachesLoop w := fun hr => hr.2.1 h
    simp [StagesAsInTrace, finish_trace, t1, t2, t3, h1, h2, h3, h4, n5, mallocCalls, parsedCalls, parseCall, openCalls, headerReadCalls, headerWriteCalls, print_usage]
  case h_hdr_write1 =>
    intro h4 _ h
    have h3 := h4.1
    have h2 := h3.1
    have h1 := h2.1
    have n5 : ¬ ReachesLoop w := fun hr => hr.2.2.1 h
    simp [StagesAsInTrace, finish_trace, t1, t2, t3, h1, h2, h3, h4, n5, mallocCalls, parsedCalls, parseCall, openCalls, headerReadCalls, headerWriteCalls, print_usage]
  case h_hdr_write2 =>
    intro h4 _ _ h
    have h3 := h4.1
    have h2 := h3.1
    have h1 := h2.1
    have n5 : ¬ ReachesLoop w := fun hr => hr.2.2.2.1 h
    simp [StagesAsInTrace, finish_trace, t1, t2, t3, h1, h2, h3, h4, n5, mallocCalls, parsedCalls, parseCall, openCalls, headerReadCalls, headerWriteCalls, print_usage]
  case h_hdr_write3 =>
    intro h4 _ _ _ h
    have h3 := h4.1
    have h2 := h3.1
    have h1 := h2.1
    have n5 : ¬ ReachesLoop w := fun hr => hr.2.2.2.2 h
    simp [StagesAsInTrace, finish_trace, t1, t2, t3, h1, h2, h3, h4, n5, mallocCalls, parsedCalls, parseCall, openCalls, headerReadCalls, headerWriteCalls, print_usage]
  case h_write =>
    intro h5 ltr hcl
    obtain ⟨c, rest, hc⟩ := copyLoop_head w 0 w.sam_read1_results
    rw [hcl] at hc
    simp only at hc
    subst hc
    have h4 := h5.1
    have h3 := h4.1
    have h2 := h3.1
    have h1 := h2.1
    refine ⟨?_, ?_, ?_, ?_, fun _ => ⟨c, by simp [finish_trace]⟩, fun _ => h5⟩ <;>
      simp [finish_trace, h1, h2, h3, h4, headerReadCalls]
  case h_eof =>
    intro h5 ltr hcl
    obtain ⟨c, rest, hc⟩ := copyLoop_head w 0 w.sam_read1_results
    rw [hcl] at hc
    simp only at hc
    subst hc
    have h4 := h5.1
    have h3 := h4.1
    have h2 := h3.1
    have h1 := h2.1
    refine ⟨?_, ?_, ?_, ?_, fun _ => ⟨c, by simp [finish_trace]⟩, fun _ => h5⟩ <;>
      simp [finish_trace, h1, h2, h3, h4, headerReadCalls]
  case h_read =>
    intro h5 ltr c0 hcl _
    obtain ⟨c, rest, hc⟩ := copyLoop_head w 0 w.sam_read1_results
    rw [hcl] at hc
    simp only at hc
    subst hc
    have h4 := h5.1
    have h3 := h4.1
    have h2 := h3.1
    have h1 := h2.1
    refine ⟨?_, ?_, ?_, ?_, fun _ => ⟨c, by simp [finish_trace]⟩, fun _ => h5⟩ <;>
      simp [finish_trace, h1, h2, h3, h4, headerReadCalls]

end Cram
